import Mathlib

/-!
Shallow embedding of the transport-parameter codec from
`internal/handshake/transport_parameters.go` (quic-go), together with
proofs about its encode/decode behaviour.

Bytes are modelled as `List Nat` (each entry is one byte, a value below 256).
Go's `time.Duration` (an `int64` number of nanoseconds) is modelled as `Int`,
with two's-complement wrap-around made explicit where the Go arithmetic can
overflow.  Fallible Go functions returning `error` are modelled with
`Except String` / `Option String`.
-/

namespace QuicTP

/-! ## Varint primitive

Modelled from the spec: the variable-length integer primitive
(`utils.ReadVarInt`, `utils.WriteVarInt`, `utils.VarIntLen`) is an external
collaborator whose source is not part of the analysed file; §6 of the spec
fixes its semantics: an unsigned integer in 1/2/4/8-byte form, the first two
bits of the first byte encoding the length, the remaining bits being the
value in network byte order, bounds-checked at 2^62. -/

/-- Split off exactly `n` bytes, failing (like `io.ReadFull`) when fewer remain. -/
def takeExact (n : Nat) (l : List Nat) : Except String (List Nat × List Nat) :=
  if n ≤ l.length then .ok (l.take n, l.drop n) else .error "EOF"

/-- Modelled from the spec: `utils.ReadVarInt`. Reads one varint; the first
byte's top two bits give the total length `2^(b/64)`, the rest accumulates
big-endian. Fails on insufficient input. Returns the value and the unread rest. -/
def readVarInt : List Nat → Except String (Nat × List Nat)
  | [] => .error "EOF"
  | b :: rest =>
    if 2 ^ (b / 64) - 1 ≤ rest.length then
      .ok ((rest.take (2 ^ (b / 64) - 1)).foldl (fun acc x => acc * 256 + x) (b % 64),
           rest.drop (2 ^ (b / 64) - 1))
    else .error "EOF"

/-- Modelled from the spec: `utils.VarIntLen`, the byte length of the minimal
varint encoding (0 stands for the out-of-range case, where Go panics). -/
def varIntLen (i : Nat) : Nat :=
  if i ≤ 63 then 1
  else if i ≤ 16383 then 2
  else if i ≤ 2 ^ 30 - 1 then 4
  else if i ≤ 2 ^ 62 - 1 then 8
  else 0

/-- Modelled from the spec: `utils.WriteVarInt`, the minimal big-endian varint
encoding with the length tag in the top two bits of the first byte
(`[]` stands for the out-of-range case, where Go panics). -/
def writeVarInt (i : Nat) : List Nat :=
  if i ≤ 63 then [i]
  else if i ≤ 16383 then [64 + i / 256, i % 256]
  else if i ≤ 2 ^ 30 - 1 then
    [128 + i / 2 ^ 24, i / 2 ^ 16 % 256, i / 2 ^ 8 % 256, i % 256]
  else if i ≤ 2 ^ 62 - 1 then
    [192 + i / 2 ^ 56, i / 2 ^ 48 % 256, i / 2 ^ 40 % 256, i / 2 ^ 32 % 256,
     i / 2 ^ 24 % 256, i / 2 ^ 16 % 256, i / 2 ^ 8 % 256, i % 256]
  else []

theorem writeVarInt_length {i : Nat} (h : i ≤ 2 ^ 62 - 1) :
    (writeVarInt i).length = varIntLen i := by
  unfold writeVarInt varIntLen
  split_ifs <;> simp

theorem writeVarInt_ne_nil {i : Nat} (h : i ≤ 2 ^ 62 - 1) :
    writeVarInt i ≠ [] := by
  unfold writeVarInt
  split_ifs <;> simp

theorem readVarInt_cons_of_le {b : Nat} {tl : List Nat}
    (h : 2 ^ (b / 64) - 1 ≤ tl.length) :
    readVarInt (b :: tl) =
      .ok ((tl.take (2 ^ (b / 64) - 1)).foldl (fun acc x => acc * 256 + x) (b % 64),
           tl.drop (2 ^ (b / 64) - 1)) := by
  simp [readVarInt, h]

theorem readVarInt_writeVarInt {i : Nat} (h : i ≤ 2 ^ 62 - 1) (rest : List Nat) :
    readVarInt (writeVarInt i ++ rest) = .ok (i, rest) := by
  unfold writeVarInt
  split_ifs with h1 h2 h3
  · have hb : i / 64 = 0 := by omega
    rw [List.cons_append, List.nil_append,
        readVarInt_cons_of_le (by rw [hb]; simp), hb]
    simp
    omega
  · have hb : (64 + i / 256) / 64 = 1 := by omega
    rw [List.cons_append, List.cons_append, List.nil_append,
        readVarInt_cons_of_le (by rw [hb]; simp), hb]
    norm_num
    omega
  · have hb : (128 + i / 2 ^ 24) / 64 = 2 := by omega
    rw [List.cons_append, List.cons_append, List.cons_append, List.cons_append,
        List.nil_append, readVarInt_cons_of_le (by rw [hb]; simp), hb]
    norm_num [List.take_succ_cons, List.drop_succ_cons]
    omega
  · have hb : (192 + i / 2 ^ 56) / 64 = 3 := by omega
    rw [List.cons_append, List.cons_append, List.cons_append, List.cons_append,
        List.cons_append, List.cons_append, List.cons_append, List.cons_append,
        List.nil_append, readVarInt_cons_of_le (by rw [hb]; simp), hb]
    norm_num [List.take_succ_cons, List.drop_succ_cons]
    omega

theorem readVarInt_length {l : List Nat} {v : Nat} {rest : List Nat}
    (h : readVarInt l = .ok (v, rest)) : rest.length < l.length := by
  cases l with
  | nil => simp [readVarInt] at h
  | cons b tl =>
    simp only [readVarInt] at h
    split at h
    · simp only [Except.ok.injEq, Prod.mk.injEq] at h
      obtain ⟨-, h2⟩ := h
      subst h2
      simp only [List.length_cons, List.length_drop]
      omega
    · simp at h

/-! ## Protocol constants

Modelled from the spec: §6 lists the protocol-wide constants consumed by the
codec (default ack-delay exponent, default/maximum max-ack-delay, minimum
remote idle timeout floor, maximum receive packet size, maximum ack-delay
exponent); their sources (`internal/protocol`, `internal/utils`) are not part
of the analysed file, so their concrete values are taken from the protocol
draft the spec describes. Durations are `int64` nanosecond counts. -/

/-- One millisecond in `time.Duration` units (nanoseconds). -/
def millisecond : Int := 1000000

/-- Modelled from the spec: `protocol.DefaultAckDelayExponent`. -/
def defaultAckDelayExponent : Nat := 3

/-- Modelled from the spec: `protocol.MaxAckDelayExponent`, the largest legal
ack-delay exponent. -/
def maxAckDelayExponent : Nat := 20

/-- Modelled from the spec: `protocol.DefaultMaxAckDelay` (25ms). -/
def defaultMaxAckDelay : Int := 25 * millisecond

/-- Modelled from the spec: `protocol.MaxMaxAckDelay`, the exclusive upper
bound on max_ack_delay (2^14 ms). -/
def maxMaxAckDelay : Int := 16384 * millisecond

/-- Modelled from the spec: `protocol.MinRemoteIdleTimeout`, the locally
configured floor for the peer's idle timeout (5s). -/
def minRemoteIdleTimeout : Int := 5 * 1000000000

/-- Modelled from the spec: `protocol.MaxReceivePacketSize`, the locally
configured maximum receive packet size always emitted by the encoder. -/
def maxReceivePacketSize : Nat := 1452

/-- Modelled from the spec: `protocol.MaxByteCount`, the unbounded sentinel
(maximum varint value). -/
def maxByteCount : Nat := 2 ^ 62 - 1

/-- Modelled from the spec: `utils.InfDuration`, the "infinite" duration
sentinel (`math.MaxInt64`). -/
def infDuration : Int := 2 ^ 63 - 1

/-- Two's-complement wrap-around of an integer into the `int64` range,
making Go's overflowing `int64` arithmetic explicit. -/
def wrap64 (n : Int) : Int := (n + 2 ^ 63) % 2 ^ 64 - 2 ^ 63

/-- Go's `uint64(i)` conversion of an `int64` value (two's complement). -/
def goUint64 (i : Int) : Nat := (i % 2 ^ 64).toNat

/-! ## Data model (`transport_parameters.go`) -/

/-- The `transportParameterID` constants. -/
def originalConnectionIDParameterID : Nat := 0x0

def maxIdleTimeoutParameterID : Nat := 0x1

def statelessResetTokenParameterID : Nat := 0x2

def maxPacketSizeParameterID : Nat := 0x3

def initialMaxDataParameterID : Nat := 0x4

def initialMaxStreamDataBidiLocalParameterID : Nat := 0x5

def initialMaxStreamDataBidiRemoteParameterID : Nat := 0x6

def initialMaxStreamDataUniParameterID : Nat := 0x7

def initialMaxStreamsBidiParameterID : Nat := 0x8

def initialMaxStreamsUniParameterID : Nat := 0x9

def ackDelayExponentParameterID : Nat := 0xa

def maxAckDelayParameterID : Nat := 0xb

def disableActiveMigrationParameterID : Nat := 0xc

def preferredAddressParameterID : Nat := 0xd

def activeConnectionIDLimitParameterID : Nat := 0xe

/-- The version tag used by the session-ticket subset codec. -/
def transportParameterMarshalingVersion : Nat := 1

/-- `protocol.Perspective`: which endpoint sent the parameter block. -/
inductive Perspective where
  | client
  | server
deriving DecidableEq, Repr

/-- `PreferredAddress`, the structured value of the preferred_address
parameter. IPs, connection ID and token are byte lists; ports are `uint16`. -/
structure PreferredAddress where
  ipv4 : List Nat
  ipv4Port : Nat
  ipv6 : List Nat
  ipv6Port : Nat
  connectionID : List Nat
  statelessResetToken : List Nat
deriving DecidableEq, Repr

/-- `TransportParameters`, the decoded configuration block. Byte counts and
stream counts are `Nat`; the two durations are `Int` (nanoseconds). -/
structure TransportParameters where
  initialMaxStreamDataBidiLocal : Nat
  initialMaxStreamDataBidiRemote : Nat
  initialMaxStreamDataUni : Nat
  initialMaxData : Nat
  maxAckDelay : Int
  ackDelayExponent : Nat
  disableActiveMigration : Bool
  maxPacketSize : Nat
  maxUniStreamNum : Nat
  maxBidiStreamNum : Nat
  maxIdleTimeout : Int
  preferredAddress : Option PreferredAddress
  statelessResetToken : Option (List Nat)
  originalConnectionID : List Nat
  activeConnectionIDLimit : Nat
deriving DecidableEq, Repr

/-- The Go zero value of `TransportParameters` (a fresh receiver). -/
def emptyTP : TransportParameters :=
  { initialMaxStreamDataBidiLocal := 0
    initialMaxStreamDataBidiRemote := 0
    initialMaxStreamDataUni := 0
    initialMaxData := 0
    maxAckDelay := 0
    ackDelayExponent := 0
    disableActiveMigration := false
    maxPacketSize := 0
    maxUniStreamNum := 0
    maxBidiStreamNum := 0
    maxIdleTimeout := 0
    preferredAddress := none
    statelessResetToken := none
    originalConnectionID := []
    activeConnectionIDLimit := 0 }

/-! ## Decoder -/

/-- Modelled from the spec: `utils.BigEndian.ReadUint16`, two bytes, network
byte order. -/
def readUint16BE : List Nat → Except String (Nat × List Nat)
  | a :: b :: rest => .ok (a * 256 + b, rest)
  | _ => .error "EOF"

/-- A single byte read (`bytes.Reader.ReadByte`). -/
def readByte : List Nat → Except String (Nat × List Nat)
  | a :: rest => .ok (a, rest)
  | _ => .error "EOF"

/-- The value-assignment switch of `readNumericTransportParameter`: validates
the decoded varint and stores it into the matching field. -/
def applyNumericTransportParameter (p : TransportParameters) (paramID val : Nat) :
    Except String TransportParameters :=
  if paramID = initialMaxStreamDataBidiLocalParameterID then
    .ok { p with initialMaxStreamDataBidiLocal := val }
  else if paramID = initialMaxStreamDataBidiRemoteParameterID then
    .ok { p with initialMaxStreamDataBidiRemote := val }
  else if paramID = initialMaxStreamDataUniParameterID then
    .ok { p with initialMaxStreamDataUni := val }
  else if paramID = initialMaxDataParameterID then
    .ok { p with initialMaxData := val }
  else if paramID = initialMaxStreamsBidiParameterID then
    .ok { p with maxBidiStreamNum := val }
  else if paramID = initialMaxStreamsUniParameterID then
    .ok { p with maxUniStreamNum := val }
  else if paramID = maxIdleTimeoutParameterID then
    .ok { p with maxIdleTimeout := max minRemoteIdleTimeout (wrap64 (val * millisecond)) }
  else if paramID = maxPacketSizeParameterID then
    if val < 1200 then .error "invalid value for max_packet_size"
    else .ok { p with maxPacketSize := val }
  else if paramID = ackDelayExponentParameterID then
    if maxAckDelayExponent < val then .error "invalid value for ack_delay_exponent"
    else .ok { p with ackDelayExponent := val % 256 }
  else if paramID = maxAckDelayParameterID then
    let maxAckDelay := wrap64 (val * millisecond)
    if maxMaxAckDelay ≤ maxAckDelay then .error "invalid value for max_ack_delay"
    else if maxAckDelay < 0 then .ok { p with maxAckDelay := infDuration }
    else .ok { p with maxAckDelay := maxAckDelay }
  else if paramID = activeConnectionIDLimitParameterID then
    .ok { p with activeConnectionIDLimit := val }
  else .error "TransportParameter BUG: transport parameter not found"

/-- `readNumericTransportParameter`: read one varint payload, check its
encoded length against the record's declared length, then validate and
store it. -/
def readNumericTransportParameter (p : TransportParameters) (paramID expectedLen : Nat)
    (r : List Nat) : Except String (TransportParameters × List Nat) :=
  match readVarInt r with
  | .error _ => .error "error while reading transport parameter"
  | .ok (val, r') =>
    if r.length - r'.length ≠ expectedLen then
      .error "inconsistent transport parameter length"
    else
      match applyNumericTransportParameter p paramID val with
      | .error e => .error e
      | .ok p' => .ok (p', r')

/-- `readPreferredAddress`: parse the structured preferred_address payload and
check that it consumed exactly the declared length. -/
def readPreferredAddress (p : TransportParameters) (expectedLen : Nat) (r : List Nat) :
    Except String (TransportParameters × List Nat) :=
  match takeExact 4 r with
  | .error e => .error e
  | .ok (ipv4, r1) =>
    match readUint16BE r1 with
    | .error e => .error e
    | .ok (ipv4Port, r2) =>
      match takeExact 16 r2 with
      | .error e => .error e
      | .ok (ipv6, r3) =>
        match readUint16BE r3 with
        | .error e => .error e
        | .ok (ipv6Port, r4) =>
          match readByte r4 with
          | .error e => .error e
          | .ok (connIDLen, r5) =>
            match takeExact connIDLen r5 with
            | .error e => .error e
            | .ok (connID, r6) =>
              match takeExact 16 r6 with
              | .error e => .error e
              | .ok (token, r7) =>
                if r.length - r7.length ≠ expectedLen then
                  .error "expected preferred_address length mismatch"
                else
                  .ok ({ p with preferredAddress := some (PreferredAddress.mk ipv4 ipv4Port ipv6 ipv6Port connID token) }, r7)

theorem takeExact_length {n : Nat} {l bs rest : List Nat}
    (h : takeExact n l = .ok (bs, rest)) : rest.length ≤ l.length := by
  unfold takeExact at h
  split at h
  · simp only [Except.ok.injEq, Prod.mk.injEq] at h
    obtain ⟨-, rfl⟩ := h
    simp
  · simp at h

theorem readUint16BE_length {l : List Nat} {v : Nat} {rest : List Nat}
    (h : readUint16BE l = .ok (v, rest)) : rest.length ≤ l.length := by
  match l with
  | [] => simp [readUint16BE] at h
  | [a] => simp [readUint16BE] at h
  | a :: b :: tl =>
    simp only [readUint16BE, Except.ok.injEq, Prod.mk.injEq] at h
    obtain ⟨-, rfl⟩ := h
    simp
    omega

theorem readByte_length {l : List Nat} {v : Nat} {rest : List Nat}
    (h : readByte l = .ok (v, rest)) : rest.length ≤ l.length := by
  match l with
  | [] => simp [readByte] at h
  | a :: tl =>
    simp only [readByte, Except.ok.injEq, Prod.mk.injEq] at h
    obtain ⟨-, rfl⟩ := h
    simp

theorem readNumericTransportParameter_length
    {p : TransportParameters} {paramID expectedLen : Nat} {r : List Nat}
    {p' : TransportParameters} {rest : List Nat}
    (h : readNumericTransportParameter p paramID expectedLen r = .ok (p', rest)) :
    rest.length ≤ r.length := by
  unfold readNumericTransportParameter at h
  split at h
  · simp at h
  · rename_i val r' hv
    split at h
    · simp at h
    · split at h
      · simp at h
      · simp only [Except.ok.injEq, Prod.mk.injEq] at h
        obtain ⟨-, rfl⟩ := h
        exact le_of_lt (readVarInt_length hv)

theorem readPreferredAddress_length
    {p : TransportParameters} {expectedLen : Nat} {r : List Nat}
    {p' : TransportParameters} {rest : List Nat}
    (h : readPreferredAddress p expectedLen r = .ok (p', rest)) :
    rest.length ≤ r.length := by
  unfold readPreferredAddress at h
  split at h
  · simp at h
  · rename_i ipv4 r1 h1
    split at h
    · simp at h
    · rename_i ipv4Port r2 h2
      split at h
      · simp at h
      · rename_i ipv6 r3 h3
        split at h
        · simp at h
        · rename_i ipv6Port r4 h4
          split at h
          · simp at h
          · rename_i connIDLen r5 h5
            split at h
            · simp at h
            · rename_i connID r6 h6
              split at h
              · simp at h
              · rename_i token r7 h7
                split at h
                · simp at h
                · simp only [Except.ok.injEq, Prod.mk.injEq] at h
                  obtain ⟨-, rfl⟩ := h
                  have := takeExact_length h1
                  have := readUint16BE_length h2
                  have := takeExact_length h3
                  have := readUint16BE_length h4
                  have := readByte_length h5
                  have := takeExact_length h6
                  have := takeExact_length h7
                  omega

/-- The mutable locals of `unmarshal`: the receiver being filled in, the list
of identifiers seen so far, and the two "was this parameter read" flags. -/
structure UState where
  p : TransportParameters
  parameterIDs : List Nat
  ackDelayExponentRead : Bool
  maxAckDelayRead : Bool
deriving DecidableEq, Repr

/-- The default arm of the dispatch switch of `unmarshal` (non-numeric and
unknown identifiers): check the remaining length against the declared length,
then handle preferred_address, disable_active_migration,
stateless_reset_token and original_connection_id, skipping anything else by
exactly its declared length. -/
def unmarshalStepDefault (sentBy : Perspective) (s1 : UState) (paramID paramLen : Nat)
    (r2 : List Nat) : Except (UState × Option String) (UState × List Nat) :=
  if r2.length < paramLen then
    .error (s1, some "remaining length smaller than parameter length")
  else if paramID = preferredAddressParameterID then
    if sentBy = .client then .error (s1, some "client sent a preferred_address")
    else
      match readPreferredAddress s1.p paramLen r2 with
      | .error e => .error (s1, some e)
      | .ok (p', rest) => .ok ({ s1 with p := p' }, rest)
  else if paramID = disableActiveMigrationParameterID then
    if paramLen ≠ 0 then
      .error (s1, some "wrong length for disable_active_migration")
    else
      .ok ({ s1 with p := { s1.p with disableActiveMigration := true } }, r2)
  else if paramID = statelessResetTokenParameterID then
    if sentBy = .client then .error (s1, some "client sent a stateless_reset_token")
    else if paramLen ≠ 16 then
      .error (s1, some "wrong length for stateless_reset_token")
    else
      .ok ({ s1 with p := { s1.p with statelessResetToken := some (r2.take 16) } },
           r2.drop 16)
  else if paramID = originalConnectionIDParameterID then
    if sentBy = .client then .error (s1, some "client sent an original_connection_id")
    else
      .ok ({ s1 with p := { s1.p with originalConnectionID := r2.take paramLen } },
           r2.drop paramLen)
  else
    .ok (s1, r2.drop paramLen)

/-- One iteration of the record walk of `unmarshal`: read an identifier and a
declared length, record the identifier, and dispatch on the identifier.
`.error (st, msg)` models a `return err` with the receiver in state `st`;
`.ok (st, rest)` means the iteration completed and the walk continues on
`rest`. -/
def unmarshalStep (sentBy : Perspective) (s : UState) (data : List Nat) :
    Except (UState × Option String) (UState × List Nat) :=
  match readVarInt data with
  | .error e => .error (s, some e)
  | .ok (paramID, r1) =>
    match readVarInt r1 with
    | .error e => .error (s, some e)
    | .ok (paramLen, r2) =>
      if paramID = ackDelayExponentParameterID then
        match readNumericTransportParameter s.p paramID paramLen r2 with
        | .error e =>
          .error ({ s with parameterIDs := s.parameterIDs ++ [paramID],
                           ackDelayExponentRead := true }, some e)
        | .ok (p', rest) =>
          .ok ({ s with p := p', parameterIDs := s.parameterIDs ++ [paramID],
                        ackDelayExponentRead := true }, rest)
      else if paramID = maxAckDelayParameterID then
        match readNumericTransportParameter s.p paramID paramLen r2 with
        | .error e =>
          .error ({ s with parameterIDs := s.parameterIDs ++ [paramID],
                           maxAckDelayRead := true }, some e)
        | .ok (p', rest) =>
          .ok ({ s with p := p', parameterIDs := s.parameterIDs ++ [paramID],
                        maxAckDelayRead := true }, rest)
      else if paramID = initialMaxStreamDataBidiLocalParameterID ∨
              paramID = initialMaxStreamDataBidiRemoteParameterID ∨
              paramID = initialMaxStreamDataUniParameterID ∨
              paramID = initialMaxDataParameterID ∨
              paramID = initialMaxStreamsBidiParameterID ∨
              paramID = initialMaxStreamsUniParameterID ∨
              paramID = maxIdleTimeoutParameterID ∨
              paramID = maxPacketSizeParameterID ∨
              paramID = activeConnectionIDLimitParameterID then
        match readNumericTransportParameter s.p paramID paramLen r2 with
        | .error e => .error ({ s with parameterIDs := s.parameterIDs ++ [paramID] }, some e)
        | .ok (p', rest) =>
          .ok ({ s with p := p', parameterIDs := s.parameterIDs ++ [paramID] }, rest)
      else
        unmarshalStepDefault sentBy { s with parameterIDs := s.parameterIDs ++ [paramID] }
          paramID paramLen r2

theorem unmarshalStepDefault_length {sentBy : Perspective} {s1 : UState}
    {paramID paramLen : Nat} {r2 : List Nat} {s' : UState} {rest : List Nat}
    (h : unmarshalStepDefault sentBy s1 paramID paramLen r2 = .ok (s', rest)) :
    rest.length ≤ r2.length := by
  delta unmarshalStepDefault at h
  split at h
  · cases h
  split at h
  · split at h
    · cases h
    split at h
    · cases h
    rename_i p' rest' hn
    cases h
    exact readPreferredAddress_length hn
  split at h
  · split at h
    · cases h
    cases h
    omega
  split at h
  · split at h
    · cases h
    split at h
    · cases h
    cases h
    simp only [List.length_drop]
    omega
  split at h
  · split at h
    · cases h
    cases h
    simp only [List.length_drop]
    omega
  cases h
  simp only [List.length_drop]
  omega

theorem unmarshalStep_length {sentBy : Perspective} {s : UState} {data : List Nat}
    {s' : UState} {rest : List Nat}
    (h : unmarshalStep sentBy s data = .ok (s', rest)) : rest.length < data.length := by
  delta unmarshalStep at h
  split at h
  · cases h
  rename_i paramID r1 hv
  have l1 := readVarInt_length hv
  split at h
  · cases h
  rename_i paramLen r2 hv2
  have l2 := readVarInt_length hv2
  split at h
  · split at h
    · cases h
    rename_i p' rest' hn
    cases h
    have := readNumericTransportParameter_length hn
    omega
  split at h
  · split at h
    · cases h
    rename_i p' rest' hn
    cases h
    have := readNumericTransportParameter_length hn
    omega
  split at h
  · split at h
    · cases h
    rename_i p' rest' hn
    cases h
    have := readNumericTransportParameter_length hn
    omega
  have := unmarshalStepDefault_length h
  omega

/-- The record walk of `unmarshal` (`for r.Len() > 0 { ... }`), written with
an explicit fuel so that it is structurally recursive (and hence computable
by the kernel); by `unmarshalStep_length` every iteration consumes at least
one byte, so restarting each iteration with fuel `rest.length + 1` never
exhausts the fuel. -/
def unmarshalLoopFuel (sentBy : Perspective) :
    Nat → UState → List Nat → UState × Option String
  | 0, s, _ => (s, none)
  | f + 1, s, data =>
    if data = [] then (s, none)
    else
      match unmarshalStep sentBy s data with
      | .error exit => exit
      | .ok (s', rest) => unmarshalLoopFuel sentBy f s' rest

/-- The record walk of `unmarshal` with the fuel instantiated. -/
def unmarshalLoop (sentBy : Perspective) (s : UState) (data : List Nat) :
    UState × Option String :=
  unmarshalLoopFuel sentBy (data.length + 1) s data

/-- Adjacent-duplicate scan performed after sorting the identifier list
(`parameterIDs[i] == parameterIDs[i+1]`). -/
def findAdjacentDup : List Nat → Option Nat
  | a :: b :: rest => if a = b then some a else findAdjacentDup (b :: rest)
  | _ => none

/-- The duplicate check of `unmarshal`: sort the recorded identifiers, then
look for an adjacent repeat. -/
def findDuplicateParameter (ids : List Nat) : Option Nat :=
  findAdjacentDup (ids.insertionSort (· ≤ ·))

/-- The once-after-the-walk defaulting of `unmarshal`: ack-delay exponent and
max-ack-delay to their defaults when never seen, max_packet_size to the
unbounded sentinel when still zero. -/
def applyDefaults (s : UState) : TransportParameters :=
  let p1 := if s.ackDelayExponentRead then s.p
            else { s.p with ackDelayExponent := defaultAckDelayExponent }
  let p2 := if s.maxAckDelayRead then p1
            else { p1 with maxAckDelay := defaultMaxAckDelay }
  if p2.maxPacketSize = 0 then { p2 with maxPacketSize := maxByteCount } else p2

/-- `(*TransportParameters).unmarshal`: the record walk, then defaulting, then
the duplicate check. Returns the receiver's final value (Go mutates it in
place) together with `some` error when the decode failed. -/
def unmarshalGo (p : TransportParameters) (data : List Nat) (sentBy : Perspective) :
    TransportParameters × Option String :=
  match unmarshalLoop sentBy (UState.mk p [] false false) data with
  | (s, some e) => (s.p, some e)
  | (s, none) =>
    let p' := applyDefaults s
    match findDuplicateParameter s.parameterIDs with
    | some _ => (p', some "received duplicate transport parameter")
    | none => (p', none)

/-! ## Encoder -/

/-- `marshalVarintParam`: one numeric record — identifier, the exact varint
length of the value, then the value. -/
def marshalVarintParam (id val : Nat) : List Nat :=
  writeVarInt id ++ writeVarInt (varIntLen val) ++ writeVarInt val

/-- The preferred_address payload written by `Marshal`. -/
def marshalPreferredAddress (pa : PreferredAddress) : List Nat :=
  pa.ipv4.drop (pa.ipv4.length - 4) ++
  [pa.ipv4Port / 256 % 256, pa.ipv4Port % 256] ++
  pa.ipv6 ++
  [pa.ipv6Port / 256 % 256, pa.ipv6Port % 256] ++
  [pa.connectionID.length % 256] ++
  pa.connectionID ++
  pa.statelessResetToken

/-- The conditional trailer of `Marshal`: max_ack_delay and ack_delay_exponent
only when different from their defaults, disable_active_migration only when
set, the three server-only parameters only when present, then the always-last
active_connection_id_limit. -/
def marshalTail (p : TransportParameters) : List Nat :=
  (if p.maxAckDelay ≠ defaultMaxAckDelay then
    marshalVarintParam maxAckDelayParameterID (goUint64 (Int.tdiv p.maxAckDelay millisecond))
   else []) ++
  (if p.ackDelayExponent ≠ defaultAckDelayExponent then
    marshalVarintParam ackDelayExponentParameterID p.ackDelayExponent
   else []) ++
  (if p.disableActiveMigration then
    writeVarInt disableActiveMigrationParameterID ++ writeVarInt 0
   else []) ++
  (p.statelessResetToken.elim []
    fun token => writeVarInt statelessResetTokenParameterID ++ writeVarInt 16 ++ token) ++
  (p.preferredAddress.elim []
    fun pa =>
      writeVarInt preferredAddressParameterID ++
      writeVarInt (4 + 2 + 16 + 2 + 1 + pa.connectionID.length + 16) ++
      marshalPreferredAddress pa) ++
  (if 0 < p.originalConnectionID.length then
    writeVarInt originalConnectionIDParameterID ++
    writeVarInt p.originalConnectionID.length ++ p.originalConnectionID
   else []) ++
  marshalVarintParam activeConnectionIDLimitParameterID p.activeConnectionIDLimit

/-- `(*TransportParameters).Marshal`. The two random draws (`rand.Intn(100)`
for the grease identifier and the 0–15 byte random filler) are passed in as
explicit arguments `greaseN` and `greaseData`; the always-emitted numeric
records come first, then the conditional trailer `marshalTail`. -/
def marshal (p : TransportParameters) (greaseN : Nat) (greaseData : List Nat) : List Nat :=
  writeVarInt (27 + 31 * greaseN) ++ writeVarInt greaseData.length ++ greaseData ++
  marshalVarintParam initialMaxStreamDataBidiLocalParameterID p.initialMaxStreamDataBidiLocal ++
  marshalVarintParam initialMaxStreamDataBidiRemoteParameterID p.initialMaxStreamDataBidiRemote ++
  marshalVarintParam initialMaxStreamDataUniParameterID p.initialMaxStreamDataUni ++
  marshalVarintParam initialMaxDataParameterID p.initialMaxData ++
  marshalVarintParam initialMaxStreamsBidiParameterID p.maxBidiStreamNum ++
  marshalVarintParam initialMaxStreamsUniParameterID p.maxUniStreamNum ++
  marshalVarintParam maxIdleTimeoutParameterID (goUint64 (Int.tdiv p.maxIdleTimeout millisecond)) ++
  marshalVarintParam maxPacketSizeParameterID maxReceivePacketSize ++
  marshalTail p

/-! ## Session-ticket subset codec and 0-RTT check -/

/-- `MarshalForSessionTicket`: version tag, then exactly the six/seven subset
records. -/
def marshalForSessionTicket (p : TransportParameters) : List Nat :=
  writeVarInt transportParameterMarshalingVersion ++
  marshalVarintParam initialMaxStreamDataBidiLocalParameterID p.initialMaxStreamDataBidiLocal ++
  marshalVarintParam initialMaxStreamDataBidiRemoteParameterID p.initialMaxStreamDataBidiRemote ++
  marshalVarintParam initialMaxStreamDataUniParameterID p.initialMaxStreamDataUni ++
  marshalVarintParam initialMaxDataParameterID p.initialMaxData ++
  marshalVarintParam initialMaxStreamsBidiParameterID p.maxBidiStreamNum ++
  marshalVarintParam initialMaxStreamsUniParameterID p.maxUniStreamNum ++
  marshalVarintParam activeConnectionIDLimitParameterID p.activeConnectionIDLimit

/-- `UnmarshalFromSessionTicket`: read and check the version tag, then feed
the remainder through the general decoder with the server perspective. -/
def unmarshalFromSessionTicket (p : TransportParameters) (data : List Nat) :
    TransportParameters × Option String :=
  match readVarInt data with
  | .error e => (p, some e)
  | .ok (version, rest) =>
    if version ≠ transportParameterMarshalingVersion then
      (p, some "unknown transport parameter marshaling version")
    else
      unmarshalGo p rest .server

/-- `ValidFor0RTT`: the six resumption-relevant fields must be pairwise
equal. -/
def validFor0RTT (p tp : TransportParameters) : Bool :=
  p.initialMaxStreamDataBidiLocal == tp.initialMaxStreamDataBidiLocal &&
  p.initialMaxStreamDataBidiRemote == tp.initialMaxStreamDataBidiRemote &&
  p.initialMaxStreamDataUni == tp.initialMaxStreamDataUni &&
  p.initialMaxData == tp.initialMaxData &&
  p.maxBidiStreamNum == tp.maxBidiStreamNum &&
  p.maxUniStreamNum == tp.maxUniStreamNum

/-! ## Step lemmas: how the decoder consumes encoded records -/

theorem unmarshalLoopFuel_irrel {sentBy : Perspective} :
    ∀ (f₁ : Nat) {f₂ : Nat} (s : UState) (data : List Nat),
      data.length < f₁ → data.length < f₂ →
      unmarshalLoopFuel sentBy f₁ s data = unmarshalLoopFuel sentBy f₂ s data := by
  intro f₁
  induction f₁ with
  | zero =>
    intro f₂ s data hl1 hl2
    omega
  | succ g ih =>
    intro f₂ s data hl1 hl2
    cases f₂ with
    | zero => omega
    | succ h =>
      unfold unmarshalLoopFuel
      by_cases hd : data = []
      · simp [hd]
      · rw [if_neg hd, if_neg hd]
        cases hstep : unmarshalStep sentBy s data with
        | error exit => rfl
        | ok pr =>
          obtain ⟨s', rest⟩ := pr
          have hlen := unmarshalStep_length hstep
          exact ih s' rest (by omega) (by omega)

theorem unmarshalLoop_nil (sentBy : Perspective) (s : UState) :
    unmarshalLoop sentBy s [] = (s, none) := rfl

theorem unmarshalLoop_cons {sentBy : Perspective} {s : UState} {data : List Nat}
    {s' : UState} {rest : List Nat} (hne : data ≠ [])
    (hstep : unmarshalStep sentBy s data = .ok (s', rest)) :
    unmarshalLoop sentBy s data = unmarshalLoop sentBy s' rest := by
  unfold unmarshalLoop
  have h1 : unmarshalLoopFuel sentBy (data.length + 1) s data =
      unmarshalLoopFuel sentBy data.length s' rest := by
    conv_lhs => unfold unmarshalLoopFuel
    rw [if_neg hne, hstep]
  rw [h1]
  have hlen := unmarshalStep_length hstep
  exact unmarshalLoopFuel_irrel data.length s' rest (by omega) (by omega)

theorem unmarshalLoop_exit {sentBy : Perspective} {s : UState} {data : List Nat}
    {exit : UState × Option String} (hne : data ≠ [])
    (hstep : unmarshalStep sentBy s data = .error exit) :
    unmarshalLoop sentBy s data = exit := by
  unfold unmarshalLoop unmarshalLoopFuel
  rw [if_neg hne, hstep]

theorem varIntLen_le_max (v : Nat) : varIntLen v ≤ 2 ^ 62 - 1 := by
  unfold varIntLen
  split_ifs <;> omega

theorem writeVarInt_append_ne_nil {i : Nat} (h : i ≤ 2 ^ 62 - 1) (l : List Nat) :
    writeVarInt i ++ l ≠ [] := by
  simp [writeVarInt_ne_nil h]

theorem readNumericTransportParameter_enc (p : TransportParameters) (id : Nat)
    {v : Nat} (hv : v ≤ 2 ^ 62 - 1) (rest : List Nat) :
    readNumericTransportParameter p id (varIntLen v) (writeVarInt v ++ rest) =
      match applyNumericTransportParameter p id v with
      | .error e => .error e
      | .ok p' => .ok (p', rest) := by
  unfold readNumericTransportParameter
  rw [readVarInt_writeVarInt hv]
  simp [writeVarInt_length hv]

theorem unmarshalStep_numeric {sentBy : Perspective} {s : UState} {rest : List Nat}
    {id v : Nat} {p' : TransportParameters}
    (hid : id = 1 ∨ id = 3 ∨ id = 4 ∨ id = 5 ∨ id = 6 ∨ id = 7 ∨ id = 8 ∨
           id = 9 ∨ id = 10 ∨ id = 11 ∨ id = 14)
    (hv : v ≤ 2 ^ 62 - 1)
    (hap : applyNumericTransportParameter s.p id v = .ok p') :
    unmarshalStep sentBy s
        (writeVarInt id ++ (writeVarInt (varIntLen v) ++ (writeVarInt v ++ rest))) =
      .ok ({ s with p := p',
                    parameterIDs := s.parameterIDs ++ [id],
                    ackDelayExponentRead := s.ackDelayExponentRead || (id == 10),
                    maxAckDelayRead := s.maxAckDelayRead || (id == 11) }, rest) := by
  rcases hid with rfl | rfl | rfl | rfl | rfl | rfl | rfl | rfl | rfl | rfl | rfl <;>
    simp [unmarshalStep, readVarInt_writeVarInt, readVarInt_writeVarInt hv,
          readVarInt_writeVarInt (varIntLen_le_max v),
          readNumericTransportParameter_enc _ _ hv, hap,
          ackDelayExponentParameterID, maxAckDelayParameterID,
          initialMaxStreamDataBidiLocalParameterID,
          initialMaxStreamDataBidiRemoteParameterID,
          initialMaxStreamDataUniParameterID, initialMaxDataParameterID,
          initialMaxStreamsBidiParameterID, initialMaxStreamsUniParameterID,
          maxIdleTimeoutParameterID, maxPacketSizeParameterID,
          activeConnectionIDLimitParameterID]

theorem takeExact_append {n : Nat} {l : List Nat} (rest : List Nat) (h : l.length = n) :
    takeExact n (l ++ rest) = .ok (l, rest) := by
  subst h
  simp [takeExact, List.take_left, List.drop_left]

/-- The well-formedness invariants Go's types give a `PreferredAddress`
(modelled structurally here): a 4-byte IPv4 address, `uint16` ports, a
16-byte IPv6 address, a 16-byte reset token and a connection ID short enough
for its 1-byte length prefix. -/
def ValidPreferredAddress (pa : PreferredAddress) : Prop :=
  pa.ipv4.length = 4 ∧ pa.ipv4Port < 2 ^ 16 ∧ pa.ipv6.length = 16 ∧
  pa.ipv6Port < 2 ^ 16 ∧ pa.connectionID.length < 256 ∧
  pa.statelessResetToken.length = 16

theorem readPreferredAddress_enc (p : TransportParameters) {pa : PreferredAddress}
    (hpa : ValidPreferredAddress pa) (rest : List Nat) :
    readPreferredAddress p (4 + 2 + 16 + 2 + 1 + pa.connectionID.length + 16)
        (marshalPreferredAddress pa ++ rest) =
      .ok ({ p with preferredAddress := some pa }, rest) := by
  obtain ⟨h4, hp4, h16, hp6, hcid, ht⟩ := hpa
  have e1 : pa.ipv4Port / 256 % 256 * 256 + pa.ipv4Port % 256 = pa.ipv4Port := by omega
  have e2 : pa.ipv6Port / 256 % 256 * 256 + pa.ipv6Port % 256 = pa.ipv6Port := by omega
  have e3 : pa.connectionID.length % 256 = pa.connectionID.length :=
    Nat.mod_eq_of_lt hcid
  have e4 : pa.ipv4.length - 4 = 0 := by omega
  unfold readPreferredAddress marshalPreferredAddress
  rw [e4, List.drop_zero]
  simp [List.append_assoc, takeExact_append, h4, h16, ht, readUint16BE, readByte,
        e1, e2, e3]
  omega

theorem unmarshalStep_unknown {sentBy : Perspective} {s : UState} {id : Nat}
    {payload rest : List Nat} (hid15 : 15 ≤ id) (hid : id ≤ 2 ^ 62 - 1)
    (hlen : payload.length ≤ 2 ^ 62 - 1) :
    unmarshalStep sentBy s (writeVarInt id ++ (writeVarInt payload.length ++ (payload ++ rest))) =
      .ok ({ s with parameterIDs := s.parameterIDs ++ [id] }, rest) := by
  have hne : ∀ k : Nat, k ≤ 14 → ¬(id = k) := by omega
  simp [unmarshalStep, unmarshalStepDefault, readVarInt_writeVarInt hid,
        readVarInt_writeVarInt hlen,
        ackDelayExponentParameterID, maxAckDelayParameterID,
        initialMaxStreamDataBidiLocalParameterID,
        initialMaxStreamDataBidiRemoteParameterID,
        initialMaxStreamDataUniParameterID, initialMaxDataParameterID,
        initialMaxStreamsBidiParameterID, initialMaxStreamsUniParameterID,
        maxIdleTimeoutParameterID, maxPacketSizeParameterID,
        activeConnectionIDLimitParameterID, preferredAddressParameterID,
        disableActiveMigrationParameterID, statelessResetTokenParameterID,
        originalConnectionIDParameterID,
        hne 0 (by norm_num), hne 1 (by norm_num), hne 2 (by norm_num),
        hne 3 (by norm_num), hne 4 (by norm_num), hne 5 (by norm_num),
        hne 6 (by norm_num), hne 7 (by norm_num), hne 8 (by norm_num),
        hne 9 (by norm_num), hne 10 (by norm_num), hne 11 (by norm_num),
        hne 12 (by norm_num), hne 13 (by norm_num), hne 14 (by norm_num),
        List.drop_left]

theorem unmarshalStep_disableActiveMigration {sentBy : Perspective} {s : UState}
    (rest : List Nat) :
    unmarshalStep sentBy s (writeVarInt 12 ++ (writeVarInt 0 ++ rest)) =
      .ok ({ s with p := { s.p with disableActiveMigration := true },
                    parameterIDs := s.parameterIDs ++ [12] }, rest) := by
  simp [unmarshalStep, unmarshalStepDefault, readVarInt_writeVarInt,
        ackDelayExponentParameterID, maxAckDelayParameterID,
        initialMaxStreamDataBidiLocalParameterID,
        initialMaxStreamDataBidiRemoteParameterID,
        initialMaxStreamDataUniParameterID, initialMaxDataParameterID,
        initialMaxStreamsBidiParameterID, initialMaxStreamsUniParameterID,
        maxIdleTimeoutParameterID, maxPacketSizeParameterID,
        activeConnectionIDLimitParameterID, preferredAddressParameterID,
        disableActiveMigrationParameterID]

theorem unmarshalStep_statelessResetToken {s : UState} {token : List Nat}
    (rest : List Nat) (htok : token.length = 16) :
    unmarshalStep .server s (writeVarInt 2 ++ (writeVarInt 16 ++ (token ++ rest))) =
      .ok ({ s with p := { s.p with statelessResetToken := some token },
                    parameterIDs := s.parameterIDs ++ [2] }, rest) := by
  simp [unmarshalStep, unmarshalStepDefault, readVarInt_writeVarInt,
        List.take_left' htok, List.drop_left' htok, htok,
        ackDelayExponentParameterID, maxAckDelayParameterID,
        initialMaxStreamDataBidiLocalParameterID,
        initialMaxStreamDataBidiRemoteParameterID,
        initialMaxStreamDataUniParameterID, initialMaxDataParameterID,
        initialMaxStreamsBidiParameterID, initialMaxStreamsUniParameterID,
        maxIdleTimeoutParameterID, maxPacketSizeParameterID,
        activeConnectionIDLimitParameterID, preferredAddressParameterID,
        disableActiveMigrationParameterID, statelessResetTokenParameterID]

theorem unmarshalStep_originalConnectionID {s : UState} {cid : List Nat}
    (rest : List Nat) (hcid : cid.length ≤ 2 ^ 62 - 1) :
    unmarshalStep .server s (writeVarInt 0 ++ (writeVarInt cid.length ++ (cid ++ rest))) =
      .ok ({ s with p := { s.p with originalConnectionID := cid },
                    parameterIDs := s.parameterIDs ++ [0] }, rest) := by
  simp [unmarshalStep, unmarshalStepDefault, readVarInt_writeVarInt,
        readVarInt_writeVarInt hcid,
        ackDelayExponentParameterID, maxAckDelayParameterID,
        initialMaxStreamDataBidiLocalParameterID,
        initialMaxStreamDataBidiRemoteParameterID,
        initialMaxStreamDataUniParameterID, initialMaxDataParameterID,
        initialMaxStreamsBidiParameterID, initialMaxStreamsUniParameterID,
        maxIdleTimeoutParameterID, maxPacketSizeParameterID,
        activeConnectionIDLimitParameterID, preferredAddressParameterID,
        disableActiveMigrationParameterID, statelessResetTokenParameterID,
        originalConnectionIDParameterID,
        List.take_left, List.drop_left]

theorem unmarshalStep_preferredAddress {s : UState} {pa : PreferredAddress}
    (rest : List Nat) (hpa : ValidPreferredAddress pa) :
    unmarshalStep .server s
        (writeVarInt 13 ++
         (writeVarInt (4 + 2 + 16 + 2 + 1 + pa.connectionID.length + 16) ++
          (marshalPreferredAddress pa ++ rest))) =
      .ok ({ s with p := { s.p with preferredAddress := some pa },
                    parameterIDs := s.parameterIDs ++ [13] }, rest) := by
  have hmlen : (marshalPreferredAddress pa).length =
      4 + 2 + 16 + 2 + 1 + pa.connectionID.length + 16 := by
    obtain ⟨h4, hp4, h16, hp6, hcid, ht⟩ := hpa
    simp [marshalPreferredAddress, h4, h16, ht]
    omega
  have hdecl : 4 + 2 + 16 + 2 + 1 + pa.connectionID.length + 16 ≤ 2 ^ 62 - 1 := by
    have := hpa.2.2.2.2.1
    omega
  simp [unmarshalStep, unmarshalStepDefault, readVarInt_writeVarInt,
        readVarInt_writeVarInt hdecl,
        ackDelayExponentParameterID, maxAckDelayParameterID,
        initialMaxStreamDataBidiLocalParameterID,
        initialMaxStreamDataBidiRemoteParameterID,
        initialMaxStreamDataUniParameterID, initialMaxDataParameterID,
        initialMaxStreamsBidiParameterID, initialMaxStreamsUniParameterID,
        maxIdleTimeoutParameterID, maxPacketSizeParameterID,
        activeConnectionIDLimitParameterID, preferredAddressParameterID,
        hmlen, readPreferredAddress_enc _ hpa]



/-! ## The duplicate check -/

theorem findAdjacentDup_eq_none_iff :
    ∀ {l : List Nat}, l.Sorted (· ≤ ·) → (findAdjacentDup l = none ↔ l.Nodup)
  | [], _ => by simp [findAdjacentDup]
  | [_], _ => by simp [findAdjacentDup]
  | a :: b :: t, hl => by
    by_cases hab : a = b
    · subst hab
      simp [findAdjacentDup]
    · have hs : (b :: t).Sorted (· ≤ ·) := hl.of_cons
      have ih := findAdjacentDup_eq_none_iff hs
      simp only [findAdjacentDup, if_neg hab]
      rw [ih]
      constructor
      · intro hnd
        refine List.nodup_cons.mpr ⟨?_, hnd⟩
        intro hmem
        rcases List.mem_cons.mp hmem with rfl | hmem_t
        · exact hab rfl
        · have hba : b ≤ a := List.rel_of_sorted_cons hs _ hmem_t
          have hab2 : a ≤ b := List.rel_of_sorted_cons hl _ (by simp)
          exact hab (le_antisymm hab2 hba)
      · exact List.Nodup.of_cons

theorem findDuplicateParameter_eq_none_iff (ids : List Nat) :
    findDuplicateParameter ids = none ↔ ids.Nodup := by
  unfold findDuplicateParameter
  rw [findAdjacentDup_eq_none_iff (List.sorted_insertionSort _ ids)]
  exact (List.perm_insertionSort _ ids).nodup_iff

/-! ## Loop-level composition lemmas -/

theorem unmarshalLoop_numeric {sentBy : Perspective} {s : UState} {rest : List Nat}
    {id v : Nat} {p' : TransportParameters}
    (hid : id = 1 ∨ id = 3 ∨ id = 4 ∨ id = 5 ∨ id = 6 ∨ id = 7 ∨ id = 8 ∨
           id = 9 ∨ id = 10 ∨ id = 11 ∨ id = 14)
    (hv : v ≤ 2 ^ 62 - 1)
    (hap : applyNumericTransportParameter s.p id v = .ok p') :
    unmarshalLoop sentBy s
        (writeVarInt id ++ (writeVarInt (varIntLen v) ++ (writeVarInt v ++ rest))) =
      unmarshalLoop sentBy
        { s with p := p',
                 parameterIDs := s.parameterIDs ++ [id],
                 ackDelayExponentRead := s.ackDelayExponentRead || (id == 10),
                 maxAckDelayRead := s.maxAckDelayRead || (id == 11) } rest := by
  have hid62 : id ≤ 2 ^ 62 - 1 := by rcases hid with rfl|rfl|rfl|rfl|rfl|rfl|rfl|rfl|rfl|rfl|rfl <;> norm_num
  exact unmarshalLoop_cons (writeVarInt_append_ne_nil hid62 _)
    (unmarshalStep_numeric hid hv hap)

theorem unmarshalLoop_unknown {sentBy : Perspective} {s : UState} {id : Nat}
    {payload rest : List Nat} (hid15 : 15 ≤ id) (hid : id ≤ 2 ^ 62 - 1)
    (hlen : payload.length ≤ 2 ^ 62 - 1) :
    unmarshalLoop sentBy s
        (writeVarInt id ++ (writeVarInt payload.length ++ (payload ++ rest))) =
      unmarshalLoop sentBy { s with parameterIDs := s.parameterIDs ++ [id] } rest :=
  unmarshalLoop_cons (writeVarInt_append_ne_nil hid _)
    (unmarshalStep_unknown hid15 hid hlen)


/-! ## Validity of a parameter set and duration arithmetic -/

theorem wrap64_eq_self {n : Int} (h1 : -(2 ^ 63) ≤ n) (h2 : n < 2 ^ 63) :
    wrap64 n = n := by
  unfold wrap64
  omega

theorem goUint64_dur {d : Int} (h0 : 0 ≤ d) (h1 : d < 2 ^ 63)
    (hd : millisecond ∣ d) :
    (goUint64 (d.tdiv millisecond) : Int) * millisecond = d ∧
    goUint64 (d.tdiv millisecond) ≤ 2 ^ 62 - 1 := by
  obtain ⟨k, rfl⟩ := hd
  have hms : millisecond = (1000000 : Int) := rfl
  have hk0 : 0 ≤ k := by
    by_contra hneg
    push_neg at hneg
    nlinarith [hms ▸ h0]
  have ht : (millisecond * k).tdiv millisecond = k :=
    Int.mul_tdiv_cancel_left _ (by norm_num [hms])
  rw [ht]
  unfold goUint64
  have hk64 : k < 2 ^ 64 := by nlinarith [hms ▸ h1]
  rw [Int.emod_eq_of_lt hk0 (by omega)]
  constructor
  · rw [Int.toNat_of_nonneg hk0]
    ring
  · have : k ≤ 2 ^ 62 - 1 := by nlinarith [hms ▸ h1]
    omega

/-- The validity predicate for a parameter set: every numeric field fits a
varint, durations are whole non-negative millisecond counts within their
protocol bounds, the idle timeout is at least the local floor, and the
structured fields satisfy the invariants Go's types give them. -/
def ValidTP (p : TransportParameters) : Prop :=
  p.initialMaxStreamDataBidiLocal ≤ maxByteCount ∧
  p.initialMaxStreamDataBidiRemote ≤ maxByteCount ∧
  p.initialMaxStreamDataUni ≤ maxByteCount ∧
  p.initialMaxData ≤ maxByteCount ∧
  p.maxBidiStreamNum ≤ maxByteCount ∧
  p.maxUniStreamNum ≤ maxByteCount ∧
  p.activeConnectionIDLimit ≤ maxByteCount ∧
  0 ≤ p.maxIdleTimeout ∧ p.maxIdleTimeout < 2 ^ 63 ∧
  millisecond ∣ p.maxIdleTimeout ∧
  minRemoteIdleTimeout ≤ p.maxIdleTimeout ∧
  0 ≤ p.maxAckDelay ∧ p.maxAckDelay < maxMaxAckDelay ∧
  millisecond ∣ p.maxAckDelay ∧
  p.ackDelayExponent ≤ maxAckDelayExponent ∧
  (∀ t ∈ p.statelessResetToken, t.length = 16) ∧
  (∀ pa ∈ p.preferredAddress, ValidPreferredAddress pa) ∧
  p.originalConnectionID.length ≤ maxByteCount

/-! ## `applyNumericTransportParameter` on each identifier -/

theorem applyNumeric_maxIdleTimeout (q : TransportParameters) (v : Nat) :
    applyNumericTransportParameter q 1 v =
      .ok { q with maxIdleTimeout := max minRemoteIdleTimeout (wrap64 (v * millisecond)) } := by
  simp [applyNumericTransportParameter, initialMaxStreamDataBidiLocalParameterID,
        initialMaxStreamDataBidiRemoteParameterID, initialMaxStreamDataUniParameterID,
        initialMaxDataParameterID, initialMaxStreamsBidiParameterID,
        initialMaxStreamsUniParameterID, maxIdleTimeoutParameterID]

theorem applyNumeric_maxPacketSize (q : TransportParameters) {v : Nat}
    (h : 1200 ≤ v) :
    applyNumericTransportParameter q 3 v = .ok { q with maxPacketSize := v } := by
  simp [applyNumericTransportParameter, initialMaxStreamDataBidiLocalParameterID,
        initialMaxStreamDataBidiRemoteParameterID, initialMaxStreamDataUniParameterID,
        initialMaxDataParameterID, initialMaxStreamsBidiParameterID,
        initialMaxStreamsUniParameterID, maxIdleTimeoutParameterID,
        maxPacketSizeParameterID]
  omega

theorem applyNumeric_initialMaxData (q : TransportParameters) (v : Nat) :
    applyNumericTransportParameter q 4 v = .ok { q with initialMaxData := v } := by
  simp [applyNumericTransportParameter, initialMaxStreamDataBidiLocalParameterID,
        initialMaxStreamDataBidiRemoteParameterID, initialMaxStreamDataUniParameterID,
        initialMaxDataParameterID]

theorem applyNumeric_initialMaxStreamDataBidiLocal (q : TransportParameters) (v : Nat) :
    applyNumericTransportParameter q 5 v =
      .ok { q with initialMaxStreamDataBidiLocal := v } := by
  simp [applyNumericTransportParameter, initialMaxStreamDataBidiLocalParameterID]

theorem applyNumeric_initialMaxStreamDataBidiRemote (q : TransportParameters) (v : Nat) :
    applyNumericTransportParameter q 6 v =
      .ok { q with initialMaxStreamDataBidiRemote := v } := by
  simp [applyNumericTransportParameter, initialMaxStreamDataBidiLocalParameterID,
        initialMaxStreamDataBidiRemoteParameterID]

theorem applyNumeric_initialMaxStreamDataUni (q : TransportParameters) (v : Nat) :
    applyNumericTransportParameter q 7 v =
      .ok { q with initialMaxStreamDataUni := v } := by
  simp [applyNumericTransportParameter, initialMaxStreamDataBidiLocalParameterID,
        initialMaxStreamDataBidiRemoteParameterID, initialMaxStreamDataUniParameterID]

theorem applyNumeric_maxBidiStreamNum (q : TransportParameters) (v : Nat) :
    applyNumericTransportParameter q 8 v = .ok { q with maxBidiStreamNum := v } := by
  simp [applyNumericTransportParameter, initialMaxStreamDataBidiLocalParameterID,
        initialMaxStreamDataBidiRemoteParameterID, initialMaxStreamDataUniParameterID,
        initialMaxDataParameterID, initialMaxStreamsBidiParameterID]

theorem applyNumeric_maxUniStreamNum (q : TransportParameters) (v : Nat) :
    applyNumericTransportParameter q 9 v = .ok { q with maxUniStreamNum := v } := by
  simp [applyNumericTransportParameter, initialMaxStreamDataBidiLocalParameterID,
        initialMaxStreamDataBidiRemoteParameterID, initialMaxStreamDataUniParameterID,
        initialMaxDataParameterID, initialMaxStreamsBidiParameterID,
        initialMaxStreamsUniParameterID]

theorem applyNumeric_ackDelayExponent (q : TransportParameters) {v : Nat}
    (h : v ≤ maxAckDelayExponent) :
    applyNumericTransportParameter q 10 v = .ok { q with ackDelayExponent := v } := by
  have h256 : v % 256 = v := Nat.mod_eq_of_lt (by
    have : maxAckDelayExponent = 20 := rfl
    omega)
  simp [applyNumericTransportParameter, initialMaxStreamDataBidiLocalParameterID,
        initialMaxStreamDataBidiRemoteParameterID, initialMaxStreamDataUniParameterID,
        initialMaxDataParameterID, initialMaxStreamsBidiParameterID,
        initialMaxStreamsUniParameterID, maxIdleTimeoutParameterID,
        maxPacketSizeParameterID, ackDelayExponentParameterID, h256,
        Nat.not_lt.mpr h]

theorem applyNumeric_maxAckDelay (q : TransportParameters) {v : Nat}
    (hlt : (v : Int) * millisecond < maxMaxAckDelay) :
    applyNumericTransportParameter q 11 v =
      .ok { q with maxAckDelay := (v : Int) * millisecond } := by
  have h0 : (0 : Int) ≤ (v : Int) * millisecond :=
    mul_nonneg (Int.natCast_nonneg v) (by norm_num [millisecond])
  have hw : wrap64 ((v : Int) * millisecond) = (v : Int) * millisecond := by
    have hmax : maxMaxAckDelay < 2 ^ 63 := by norm_num [maxMaxAckDelay, millisecond]
    exact wrap64_eq_self (by linarith) (by linarith)
  simp [applyNumericTransportParameter, initialMaxStreamDataBidiLocalParameterID,
        initialMaxStreamDataBidiRemoteParameterID, initialMaxStreamDataUniParameterID,
        initialMaxDataParameterID, initialMaxStreamsBidiParameterID,
        initialMaxStreamsUniParameterID, maxIdleTimeoutParameterID,
        maxPacketSizeParameterID, ackDelayExponentParameterID,
        maxAckDelayParameterID, hw, not_le.mpr hlt, not_lt.mpr h0]

theorem applyNumeric_activeConnectionIDLimit (q : TransportParameters) (v : Nat) :
    applyNumericTransportParameter q 14 v =
      .ok { q with activeConnectionIDLimit := v } := by
  simp [applyNumericTransportParameter, initialMaxStreamDataBidiLocalParameterID,
        initialMaxStreamDataBidiRemoteParameterID, initialMaxStreamDataUniParameterID,
        initialMaxDataParameterID, initialMaxStreamsBidiParameterID,
        initialMaxStreamsUniParameterID, maxIdleTimeoutParameterID,
        maxPacketSizeParameterID, ackDelayExponentParameterID,
        maxAckDelayParameterID, disableActiveMigrationParameterID,
        preferredAddressParameterID, activeConnectionIDLimitParameterID]


theorem unmarshalLoop_numeric_last {sentBy : Perspective} {s : UState}
    {id v : Nat} {p' : TransportParameters}
    (hid : id = 1 ∨ id = 3 ∨ id = 4 ∨ id = 5 ∨ id = 6 ∨ id = 7 ∨ id = 8 ∨
           id = 9 ∨ id = 10 ∨ id = 11 ∨ id = 14)
    (hv : v ≤ 2 ^ 62 - 1)
    (hap : applyNumericTransportParameter s.p id v = .ok p') :
    unmarshalLoop sentBy s
        (writeVarInt id ++ (writeVarInt (varIntLen v) ++ writeVarInt v)) =
      ({ s with p := p',
                parameterIDs := s.parameterIDs ++ [id],
                ackDelayExponentRead := s.ackDelayExponentRead || (id == 10),
                maxAckDelayRead := s.maxAckDelayRead || (id == 11) }, none) := by
  have h : writeVarInt id ++ (writeVarInt (varIntLen v) ++ writeVarInt v) =
      writeVarInt id ++ (writeVarInt (varIntLen v) ++ (writeVarInt v ++ [])) := by
    simp
  rw [h, unmarshalLoop_numeric hid hv hap, unmarshalLoop_nil]

theorem unmarshalLoop_optMaxAckDelay {sentBy : Perspective} {s : UState}
    {rest : List Nat} {d : Int} (h0 : 0 ≤ d) (h1 : d < maxMaxAckDelay)
    (hd : millisecond ∣ d) :
    unmarshalLoop sentBy s
        ((if d ≠ defaultMaxAckDelay then
            writeVarInt 11 ++ (writeVarInt (varIntLen (goUint64 (d.tdiv millisecond))) ++
              writeVarInt (goUint64 (d.tdiv millisecond)))
          else []) ++ rest) =
      unmarshalLoop sentBy
        { s with p := { s.p with maxAckDelay :=
                          if d ≠ defaultMaxAckDelay then d else s.p.maxAckDelay },
                 parameterIDs := s.parameterIDs ++ (if d ≠ defaultMaxAckDelay then [11] else []),
                 maxAckDelayRead := s.maxAckDelayRead || decide (d ≠ defaultMaxAckDelay) }
        rest := by
  have hmax : maxMaxAckDelay < 2 ^ 63 := by norm_num [maxMaxAckDelay, millisecond]
  by_cases hc : d ≠ defaultMaxAckDelay
  · rw [if_pos hc]
    have hdur := goUint64_dur h0 (by linarith) hd
    have hlt : ((goUint64 (d.tdiv millisecond) : Nat) : Int) * millisecond < maxMaxAckDelay := by
      rw [hdur.1]
      exact h1
    simp only [List.append_assoc]
    rw [unmarshalLoop_numeric (by norm_num) hdur.2 (applyNumeric_maxAckDelay _ hlt)]
    rw [hdur.1]
    simp [hc]
  · rw [if_neg hc]
    push_neg at hc
    simp [hc]

theorem unmarshalLoop_optAckDelayExponent {sentBy : Perspective} {s : UState}
    {rest : List Nat} {e : Nat} (he : e ≤ maxAckDelayExponent) :
    unmarshalLoop sentBy s
        ((if e ≠ defaultAckDelayExponent then
            writeVarInt 10 ++ (writeVarInt (varIntLen e) ++ writeVarInt e)
          else []) ++ rest) =
      unmarshalLoop sentBy
        { s with p := { s.p with ackDelayExponent :=
                          if e ≠ defaultAckDelayExponent then e else s.p.ackDelayExponent },
                 parameterIDs := s.parameterIDs ++ (if e ≠ defaultAckDelayExponent then [10] else []),
                 ackDelayExponentRead := s.ackDelayExponentRead || decide (e ≠ defaultAckDelayExponent) }
        rest := by
  by_cases hc : e ≠ defaultAckDelayExponent
  · rw [if_pos hc]
    have he62 : e ≤ 2 ^ 62 - 1 := by
      have : maxAckDelayExponent = 20 := rfl
      omega
    simp only [List.append_assoc]
    rw [unmarshalLoop_numeric (by norm_num) he62 (applyNumeric_ackDelayExponent _ he)]
    simp [hc]
  · rw [if_neg hc]
    push_neg at hc
    simp [hc]

theorem unmarshalLoop_optDisableActiveMigration {sentBy : Perspective} {s : UState}
    {rest : List Nat} {b : Bool} :
    unmarshalLoop sentBy s
        ((if b then writeVarInt 12 ++ writeVarInt 0 else []) ++ rest) =
      unmarshalLoop sentBy
        { s with p := { s.p with disableActiveMigration :=
                          if b then true else s.p.disableActiveMigration },
                 parameterIDs := s.parameterIDs ++ (if b then [12] else []) } rest := by
  cases b
  · simp
  · simp only [if_pos trivial, List.append_assoc]
    rw [unmarshalLoop_cons (writeVarInt_append_ne_nil (by norm_num) _)
        (unmarshalStep_disableActiveMigration _)]

theorem unmarshalLoop_optStatelessResetToken {sentBy : Perspective} {s : UState}
    {rest : List Nat} {o : Option (List Nat)}
    (hto : ∀ t ∈ o, t.length = 16)
    (hrole : sentBy = .server ∨ o = none) :
    unmarshalLoop sentBy s
        ((o.elim [] fun token => writeVarInt 2 ++ (writeVarInt 16 ++ token)) ++ rest) =
      unmarshalLoop sentBy
        { s with
          p := { s.p with statelessResetToken := o.elim s.p.statelessResetToken some },
          parameterIDs := s.parameterIDs ++ (o.elim [] fun _ => [2]) } rest := by
  match o with
  | none => simp
  | some token =>
    rcases hrole with rfl | hnone
    · have ht : token.length = 16 := hto token rfl
      simp only [Option.elim_some, List.append_assoc]
      rw [unmarshalLoop_cons (writeVarInt_append_ne_nil (by norm_num) _)
          (unmarshalStep_statelessResetToken _ ht)]
    · cases hnone

theorem unmarshalLoop_optPreferredAddress {sentBy : Perspective} {s : UState}
    {rest : List Nat} {o : Option PreferredAddress}
    (hpa : ∀ pa ∈ o, ValidPreferredAddress pa)
    (hrole : sentBy = .server ∨ o = none) :
    unmarshalLoop sentBy s
        ((o.elim []
           fun pa =>
             writeVarInt 13 ++
             (writeVarInt (4 + 2 + 16 + 2 + 1 + pa.connectionID.length + 16) ++
              marshalPreferredAddress pa)) ++ rest) =
      unmarshalLoop sentBy
        { s with
          p := { s.p with preferredAddress := o.elim s.p.preferredAddress some },
          parameterIDs := s.parameterIDs ++ (o.elim [] fun _ => [13]) } rest := by
  match o with
  | none => simp
  | some pa =>
    rcases hrole with rfl | hnone
    · have hv := hpa pa rfl
      simp only [Option.elim_some, List.append_assoc]
      rw [unmarshalLoop_cons (writeVarInt_append_ne_nil (by norm_num) _)
          (unmarshalStep_preferredAddress _ hv)]
    · cases hnone

theorem unmarshalLoop_optOriginalConnectionID {sentBy : Perspective} {s : UState}
    {rest : List Nat} {cid : List Nat} (hlen : cid.length ≤ maxByteCount)
    (hrole : sentBy = .server ∨ cid = []) :
    unmarshalLoop sentBy s
        ((if 0 < cid.length then
            writeVarInt 0 ++ (writeVarInt cid.length ++ cid)
          else []) ++ rest) =
      unmarshalLoop sentBy
        { s with p := { s.p with originalConnectionID :=
                          if 0 < cid.length then cid else s.p.originalConnectionID },
                 parameterIDs := s.parameterIDs ++ (if 0 < cid.length then [0] else []) }
        rest := by
  by_cases hc : 0 < cid.length
  · rcases hrole with rfl | hnil
    · rw [if_pos hc]
      simp only [List.append_assoc]
      rw [unmarshalLoop_cons (writeVarInt_append_ne_nil (by norm_num) _)
          (unmarshalStep_originalConnectionID _ hlen)]
      simp [hc]
    · rw [hnil] at hc
      simp at hc
  · rw [if_neg hc]
    simp [hc]


set_option maxHeartbeats 1000000 in
/-- Walking the conditional trailer of the encoding from any intermediate
state: each present record is consumed and applied, each absent one changes
nothing. -/
theorem unmarshalLoop_marshalTail (sentBy : Perspective) (p : TransportParameters)
    (hp : ValidTP p)
    (hrole2 : sentBy = .server ∨ p.statelessResetToken = none)
    (hrole3 : sentBy = .server ∨ p.preferredAddress = none)
    (hrole4 : sentBy = .server ∨ p.originalConnectionID = [])
    (s : UState) :
    unmarshalLoop sentBy s (marshalTail p) =
      ({ s with
         p := { s.p with
                maxAckDelay := if p.maxAckDelay ≠ defaultMaxAckDelay then p.maxAckDelay
                               else s.p.maxAckDelay,
                ackDelayExponent := if p.ackDelayExponent ≠ defaultAckDelayExponent
                                    then p.ackDelayExponent else s.p.ackDelayExponent,
                disableActiveMigration := if p.disableActiveMigration then true
                                          else s.p.disableActiveMigration,
                statelessResetToken := p.statelessResetToken.elim s.p.statelessResetToken some,
                preferredAddress := p.preferredAddress.elim s.p.preferredAddress some,
                originalConnectionID := if 0 < p.originalConnectionID.length
                                        then p.originalConnectionID
                                        else s.p.originalConnectionID,
                activeConnectionIDLimit := p.activeConnectionIDLimit },
         parameterIDs := s.parameterIDs ++
           ((if p.maxAckDelay ≠ defaultMaxAckDelay then [11] else []) ++
            ((if p.ackDelayExponent ≠ defaultAckDelayExponent then [10] else []) ++
             ((if p.disableActiveMigration then [12] else []) ++
              ((p.statelessResetToken.elim [] fun _ => [2]) ++
               ((p.preferredAddress.elim [] fun _ => [13]) ++
                ((if 0 < p.originalConnectionID.length then [0] else []) ++ [14])))))),
         ackDelayExponentRead := s.ackDelayExponentRead ||
           decide (p.ackDelayExponent ≠ defaultAckDelayExponent),
         maxAckDelayRead := s.maxAckDelayRead ||
           decide (p.maxAckDelay ≠ defaultMaxAckDelay) }, none) := by
  obtain ⟨h1, h2, h3, h4, h5, h6, h7, hi0, hi63, hidvd, himin, had0, hadlt, haddvd,
          hexp, htok, hpav, hocid⟩ := hp
  unfold marshalTail
  simp only [marshalVarintParam, List.append_assoc, maxAckDelayParameterID,
    ackDelayExponentParameterID, disableActiveMigrationParameterID,
    statelessResetTokenParameterID, preferredAddressParameterID,
    originalConnectionIDParameterID, activeConnectionIDLimitParameterID]
  rw [unmarshalLoop_optMaxAckDelay had0 hadlt haddvd]
  rw [unmarshalLoop_optAckDelayExponent hexp]
  rw [unmarshalLoop_optDisableActiveMigration]
  rw [unmarshalLoop_optStatelessResetToken htok hrole2]
  rw [unmarshalLoop_optPreferredAddress hpav hrole3]
  rw [unmarshalLoop_optOriginalConnectionID hocid hrole4]
  rw [unmarshalLoop_numeric_last (by norm_num) h7 (applyNumeric_activeConnectionIDLimit _ _)]
  simp [List.append_assoc]


theorem optElim_none_some {α : Type} (o : Option α) : o.elim none some = o := by
  cases o <;> rfl

theorem list_if_pos_length {α : Type} (l : List α) :
    (if 0 < l.length then l else ([] : List α)) = l := by
  cases l <;> simp

set_option maxHeartbeats 2000000 in
/-- Walking an entire `Marshal` encoding from a fresh receiver: every record
is consumed, the recorded identifier list is exactly the emitted one, and the
fields are populated from `p` (the idle timeout through its clamp, the packet
size with the locally configured receive size). -/
theorem unmarshalLoop_marshal (sentBy : Perspective) (p : TransportParameters)
    (gN : Nat) (gD : List Nat) (hp : ValidTP p) (hN : gN < 100) (hg : gD.length < 16)
    (hrole : sentBy = .server ∨
      (p.preferredAddress = none ∧ p.statelessResetToken = none ∧
       p.originalConnectionID = [])) :
    unmarshalLoop sentBy (UState.mk emptyTP [] false false) (marshal p gN gD) =
      (UState.mk
        { initialMaxStreamDataBidiLocal := p.initialMaxStreamDataBidiLocal
          initialMaxStreamDataBidiRemote := p.initialMaxStreamDataBidiRemote
          initialMaxStreamDataUni := p.initialMaxStreamDataUni
          initialMaxData := p.initialMaxData
          maxAckDelay := if p.maxAckDelay ≠ defaultMaxAckDelay then p.maxAckDelay else 0
          ackDelayExponent :=
            if p.ackDelayExponent ≠ defaultAckDelayExponent then p.ackDelayExponent else 0
          disableActiveMigration := p.disableActiveMigration
          maxPacketSize := maxReceivePacketSize
          maxUniStreamNum := p.maxUniStreamNum
          maxBidiStreamNum := p.maxBidiStreamNum
          maxIdleTimeout := p.maxIdleTimeout
          preferredAddress := p.preferredAddress
          statelessResetToken := p.statelessResetToken
          originalConnectionID := p.originalConnectionID
          activeConnectionIDLimit := p.activeConnectionIDLimit }
        ((27 + 31 * gN) :: 5 :: 6 :: 7 :: 4 :: 8 :: 9 :: 1 :: 3 ::
          ((if p.maxAckDelay ≠ defaultMaxAckDelay then [11] else []) ++
           ((if p.ackDelayExponent ≠ defaultAckDelayExponent then [10] else []) ++
            ((if p.disableActiveMigration then [12] else []) ++
             ((p.statelessResetToken.elim [] fun _ => [2]) ++
              ((p.preferredAddress.elim [] fun _ => [13]) ++
               ((if 0 < p.originalConnectionID.length then [0] else []) ++ [14])))))))
        (decide (p.ackDelayExponent ≠ defaultAckDelayExponent))
        (decide (p.maxAckDelay ≠ defaultMaxAckDelay)), none) := by
  have hp2 := hp
  obtain ⟨h1, h2, h3, h4, h5, h6, h7, hi0, hi63, hidvd, himin, had0, hadlt, haddvd,
          hexp, htok, hpav, hocid⟩ := hp2
  have hiledur := goUint64_dur hi0 hi63 hidvd
  have hrole2 : sentBy = .server ∨ p.statelessResetToken = none := by tauto
  have hrole3 : sentBy = .server ∨ p.preferredAddress = none := by tauto
  have hrole4 : sentBy = .server ∨ p.originalConnectionID = [] := by tauto
  have hw : wrap64 p.maxIdleTimeout = p.maxIdleTimeout :=
    wrap64_eq_self (by linarith) hi63
  simp only [marshal, marshalVarintParam, List.append_assoc,
    initialMaxStreamDataBidiLocalParameterID, initialMaxStreamDataBidiRemoteParameterID,
    initialMaxStreamDataUniParameterID, initialMaxDataParameterID,
    initialMaxStreamsBidiParameterID, initialMaxStreamsUniParameterID,
    maxIdleTimeoutParameterID, maxPacketSizeParameterID]
  rw [unmarshalLoop_unknown (by omega) (by omega) (by omega)]
  rw [unmarshalLoop_numeric (by norm_num) h1 (applyNumeric_initialMaxStreamDataBidiLocal _ _)]
  rw [unmarshalLoop_numeric (by norm_num) h2 (applyNumeric_initialMaxStreamDataBidiRemote _ _)]
  rw [unmarshalLoop_numeric (by norm_num) h3 (applyNumeric_initialMaxStreamDataUni _ _)]
  rw [unmarshalLoop_numeric (by norm_num) h4 (applyNumeric_initialMaxData _ _)]
  rw [unmarshalLoop_numeric (by norm_num) h5 (applyNumeric_maxBidiStreamNum _ _)]
  rw [unmarshalLoop_numeric (by norm_num) h6 (applyNumeric_maxUniStreamNum _ _)]
  rw [unmarshalLoop_numeric (by norm_num) hiledur.2 (applyNumeric_maxIdleTimeout _ _)]
  rw [unmarshalLoop_numeric (by norm_num) (by norm_num [maxReceivePacketSize])
      (applyNumeric_maxPacketSize _ (by norm_num [maxReceivePacketSize]))]
  rw [unmarshalLoop_marshalTail sentBy p hp hrole2 hrole3 hrole4]
  simp [emptyTP, hiledur.1, hw, max_eq_right himin, optElim_none_some,
        list_if_pos_length]

theorem if_singleton_sublist {c : Prop} [Decidable c] (a : Nat) :
    List.Sublist (if c then [a] else []) [a] := by
  split_ifs <;> simp

theorem elim_singleton_sublist {α : Type} (o : Option α) (a : Nat) :
    List.Sublist (o.elim [] fun _ => [a]) [a] := by
  cases o <;> simp

/-- The identifier list recorded while decoding a `Marshal` encoding has no
duplicates. -/
theorem marshal_parameterIDs_nodup (p : TransportParameters) (gN : Nat) :
    ((27 + 31 * gN) :: 5 :: 6 :: 7 :: 4 :: 8 :: 9 :: 1 :: 3 ::
      ((if p.maxAckDelay ≠ defaultMaxAckDelay then [11] else []) ++
       ((if p.ackDelayExponent ≠ defaultAckDelayExponent then [10] else []) ++
        ((if p.disableActiveMigration then [12] else []) ++
         ((p.statelessResetToken.elim [] fun _ => [2]) ++
          ((p.preferredAddress.elim [] fun _ => [13]) ++
           ((if 0 < p.originalConnectionID.length then [0] else []) ++ [14])))))) :
      List Nat).Nodup := by
  have hsub : List.Sublist
      ((if p.maxAckDelay ≠ defaultMaxAckDelay then [11] else []) ++
       ((if p.ackDelayExponent ≠ defaultAckDelayExponent then [10] else []) ++
        ((if p.disableActiveMigration then [12] else []) ++
         ((p.statelessResetToken.elim [] fun _ => [2]) ++
          ((p.preferredAddress.elim [] fun _ => [13]) ++
           ((if 0 < p.originalConnectionID.length then [0] else []) ++ [14]))))))
      ([11] ++ ([10] ++ ([12] ++ ([2] ++ ([13] ++ ([0] ++ [14])))))) :=
    (if_singleton_sublist 11).append
      ((if_singleton_sublist 10).append
        ((if_singleton_sublist 12).append
          ((elim_singleton_sublist _ 2).append
            ((elim_singleton_sublist _ 13).append
              ((if_singleton_sublist 0).append (List.Sublist.refl _))))))
  have hfull : (((27 + 31 * gN) :: 5 :: 6 :: 7 :: 4 :: 8 :: 9 :: 1 :: 3 ::
      ([11] ++ ([10] ++ ([12] ++ ([2] ++ ([13] ++ ([0] ++ [14]))))))) : List Nat).Nodup := by
    simp
    omega
  exact hfull.sublist
    (((((((((hsub.cons₂ 3).cons₂ 1).cons₂ 9).cons₂ 8).cons₂ 4).cons₂ 7).cons₂
      6).cons₂ 5).cons₂ (27 + 31 * gN))


/-! ## Claim theorems -/

set_option maxHeartbeats 1000000 in
/-- C1 (amended): for every valid `TransportParameters` value `p` whose
server-only fields are only present when the sender role is server, decoding
the bytes produced by `Marshal(p)` succeeds and yields `p` again after
applying the defaulting rules — except that `MaxPacketSize` always decodes to
the locally configured maximum receive size, since `Marshal` always emits
that size rather than `p.MaxPacketSize`. -/
theorem unmarshalGo_marshal (sentBy : Perspective) (p : TransportParameters)
    (gN : Nat) (gD : List Nat) (hp : ValidTP p) (hN : gN < 100) (hg : gD.length < 16)
    (hrole : sentBy = .server ∨
      (p.preferredAddress = none ∧ p.statelessResetToken = none ∧
       p.originalConnectionID = [])) :
    unmarshalGo emptyTP (marshal p gN gD) sentBy =
      ({ p with maxPacketSize := maxReceivePacketSize }, none) := by
  unfold unmarshalGo
  rw [unmarshalLoop_marshal sentBy p gN gD hp hN hg hrole]
  have hdup := (findDuplicateParameter_eq_none_iff _).mpr (marshal_parameterIDs_nodup p gN)
  simp only [hdup]
  by_cases hA : p.maxAckDelay = defaultMaxAckDelay <;>
    by_cases hE : p.ackDelayExponent = defaultAckDelayExponent <;>
      simp [applyDefaults, hA, hE, maxReceivePacketSize] <;>
        (try constructor) <;> (try rfl)

/-- A valid parameter set that exercises every optional field and agrees with
the locally configured maximum receive packet size. -/
def sampleTP : TransportParameters :=
  { initialMaxStreamDataBidiLocal := 1000
    initialMaxStreamDataBidiRemote := 2000
    initialMaxStreamDataUni := 70000
    initialMaxData := 123456789
    maxAckDelay := 30 * millisecond
    ackDelayExponent := 5
    disableActiveMigration := true
    maxPacketSize := maxReceivePacketSize
    maxUniStreamNum := 7
    maxBidiStreamNum := 9
    maxIdleTimeout := 10 * 1000000000
    preferredAddress := some (PreferredAddress.mk [10, 0, 0, 1] 8080
      (List.replicate 16 7) 443 [1, 2, 3, 4] (List.range 16))
    statelessResetToken := some (List.range 16)
    originalConnectionID := [9, 9, 9]
    activeConnectionIDLimit := 4 }

theorem sampleTP_valid : ValidTP sampleTP := by
  refine ⟨by norm_num [sampleTP, maxByteCount], by norm_num [sampleTP, maxByteCount],
    by norm_num [sampleTP, maxByteCount], by norm_num [sampleTP, maxByteCount],
    by norm_num [sampleTP, maxByteCount], by norm_num [sampleTP, maxByteCount],
    by norm_num [sampleTP, maxByteCount], by norm_num [sampleTP],
    by norm_num [sampleTP], ⟨10000, by norm_num [sampleTP, millisecond]⟩,
    by norm_num [sampleTP, minRemoteIdleTimeout],
    by norm_num [sampleTP, millisecond],
    by norm_num [sampleTP, maxMaxAckDelay, millisecond],
    ⟨30, by norm_num [sampleTP, millisecond]⟩,
    by norm_num [sampleTP, maxAckDelayExponent], ?_, ?_,
    by norm_num [sampleTP, maxByteCount]⟩
  · intro t ht
    simp only [sampleTP, Option.mem_def, Option.some.injEq] at ht
    subst ht
    simp
  · intro pa hpa
    simp only [sampleTP, Option.mem_def, Option.some.injEq] at hpa
    subst hpa
    exact ⟨by norm_num, by norm_num, by simp, by norm_num, by norm_num, by simp⟩

/-- C1 witness: the round-trip theorem applied to `sampleTP` with the server
role and a concrete grease draw. -/
theorem unmarshalGo_marshal_witness :
    ValidTP sampleTP ∧
    unmarshalGo emptyTP (marshal sampleTP 3 [1, 2, 3]) .server =
      ({ sampleTP with maxPacketSize := maxReceivePacketSize }, none) :=
  ⟨sampleTP_valid,
   unmarshalGo_marshal .server sampleTP 3 [1, 2, 3] sampleTP_valid
     (by norm_num) (by norm_num) (Or.inl rfl)⟩

/-- A valid parameter set whose `maxPacketSize` field is zero: `Marshal`
ignores the field, so decoding its encoding cannot restore it. -/
def tpPacketSizeZero : TransportParameters :=
  { emptyTP with maxIdleTimeout := 5000000000, maxAckDelay := defaultMaxAckDelay,
                 ackDelayExponent := defaultAckDelayExponent }

theorem tpPacketSizeZero_valid : ValidTP tpPacketSizeZero := by
  refine ⟨by norm_num [tpPacketSizeZero, emptyTP, maxByteCount],
    by norm_num [tpPacketSizeZero, emptyTP, maxByteCount],
    by norm_num [tpPacketSizeZero, emptyTP, maxByteCount],
    by norm_num [tpPacketSizeZero, emptyTP, maxByteCount],
    by norm_num [tpPacketSizeZero, emptyTP, maxByteCount],
    by norm_num [tpPacketSizeZero, emptyTP, maxByteCount],
    by norm_num [tpPacketSizeZero, emptyTP, maxByteCount],
    by norm_num [tpPacketSizeZero, emptyTP],
    by norm_num [tpPacketSizeZero, emptyTP],
    ⟨5000, by norm_num [tpPacketSizeZero, emptyTP, millisecond]⟩,
    by norm_num [tpPacketSizeZero, emptyTP, minRemoteIdleTimeout],
    by norm_num [tpPacketSizeZero, emptyTP, defaultMaxAckDelay, millisecond],
    by norm_num [tpPacketSizeZero, emptyTP, defaultMaxAckDelay, maxMaxAckDelay, millisecond],
    ⟨25, by norm_num [tpPacketSizeZero, emptyTP, defaultMaxAckDelay, millisecond]⟩,
    by norm_num [tpPacketSizeZero, emptyTP, defaultAckDelayExponent, maxAckDelayExponent],
    ?_, ?_, by norm_num [tpPacketSizeZero, emptyTP, maxByteCount]⟩
  · intro t ht
    simp [tpPacketSizeZero, emptyTP] at ht
  · intro pa hpa
    simp [tpPacketSizeZero, emptyTP] at hpa

set_option maxRecDepth 100000 in
/-- C1 counterexample: a valid parameter set with `maxPacketSize = 0` does not
round-trip — the decoded value carries the locally configured maximum receive
size (1452) instead, so `decode(encode(p)) ≠ p`. -/
theorem marshal_roundtrip_counterexample :
    ValidTP tpPacketSizeZero ∧
    unmarshalGo emptyTP (marshal tpPacketSizeZero 0 []) .server ≠
      (tpPacketSizeZero, none) :=
  ⟨tpPacketSizeZero_valid, by decide⟩


/-- C9: `ValidFor0RTT` returns true exactly when the four flow-control limits
and the two stream-count limits are pairwise equal; it is symmetric in its two
arguments; two parameter sets differing only in the idle timeout are
compatible, and two differing in `InitialMaxData` are incompatible. -/
theorem validFor0RTT_spec :
    (∀ p tp : TransportParameters, validFor0RTT p tp = true ↔
      (p.initialMaxStreamDataBidiLocal = tp.initialMaxStreamDataBidiLocal ∧
       p.initialMaxStreamDataBidiRemote = tp.initialMaxStreamDataBidiRemote ∧
       p.initialMaxStreamDataUni = tp.initialMaxStreamDataUni ∧
       p.initialMaxData = tp.initialMaxData ∧
       p.maxBidiStreamNum = tp.maxBidiStreamNum ∧
       p.maxUniStreamNum = tp.maxUniStreamNum)) ∧
    (∀ p tp : TransportParameters, validFor0RTT p tp = validFor0RTT tp p) ∧
    (∀ (p : TransportParameters) (t : Int),
      validFor0RTT p { p with maxIdleTimeout := t } = true) ∧
    (∀ (p : TransportParameters) (d : Nat), d ≠ p.initialMaxData →
      validFor0RTT p { p with initialMaxData := d } = false) := by
  have hiff : ∀ p tp : TransportParameters, validFor0RTT p tp = true ↔
      (p.initialMaxStreamDataBidiLocal = tp.initialMaxStreamDataBidiLocal ∧
       p.initialMaxStreamDataBidiRemote = tp.initialMaxStreamDataBidiRemote ∧
       p.initialMaxStreamDataUni = tp.initialMaxStreamDataUni ∧
       p.initialMaxData = tp.initialMaxData ∧
       p.maxBidiStreamNum = tp.maxBidiStreamNum ∧
       p.maxUniStreamNum = tp.maxUniStreamNum) := by
    intro p tp
    simp [validFor0RTT, and_assoc]
  refine ⟨hiff, ?_, ?_, ?_⟩
  · intro p tp
    rw [Bool.eq_iff_iff, hiff, hiff]
    constructor
    · rintro ⟨a, b, c, d, e, f⟩
      exact ⟨a.symm, b.symm, c.symm, d.symm, e.symm, f.symm⟩
    · rintro ⟨a, b, c, d, e, f⟩
      exact ⟨a.symm, b.symm, c.symm, d.symm, e.symm, f.symm⟩
  · intro p t
    rw [hiff]
    exact ⟨rfl, rfl, rfl, rfl, rfl, rfl⟩
  · intro p d hd
    rw [Bool.eq_false_iff, Ne, hiff]
    rintro ⟨-, -, -, h, -, -⟩
    exact hd h.symm

/-- C9 witness: the characterisation applied at concrete parameter sets. -/
theorem validFor0RTT_spec_witness :
    validFor0RTT emptyTP { emptyTP with maxIdleTimeout := 99 } = true ∧
    validFor0RTT emptyTP { emptyTP with initialMaxData := 1 } = false :=
  ⟨validFor0RTT_spec.2.2.1 emptyTP 99,
   validFor0RTT_spec.2.2.2 emptyTP 1 (by norm_num [emptyTP])⟩

/-- C8: decoding a max_packet_size record errors for every value below 1200
(in particular 1199) and succeeds storing the value verbatim at 1200; decoding
an ack_delay_exponent record errors at one above the protocol maximum and
succeeds at the maximum. -/
theorem boundary_values (q : TransportParameters) (rest : List Nat) :
    (∀ v : Nat, v < 1200 →
      ∃ e, readNumericTransportParameter q 3 (varIntLen v) (writeVarInt v ++ rest) =
        .error e) ∧
    (∃ e, readNumericTransportParameter q 3 (varIntLen 1199) (writeVarInt 1199 ++ rest) =
      .error e) ∧
    readNumericTransportParameter q 3 (varIntLen 1200) (writeVarInt 1200 ++ rest) =
      .ok ({ q with maxPacketSize := 1200 }, rest) ∧
    (∃ e, readNumericTransportParameter q 10 (varIntLen (maxAckDelayExponent + 1))
        (writeVarInt (maxAckDelayExponent + 1) ++ rest) = .error e) ∧
    readNumericTransportParameter q 10 (varIntLen maxAckDelayExponent)
        (writeVarInt maxAckDelayExponent ++ rest) =
      .ok ({ q with ackDelayExponent := maxAckDelayExponent }, rest) := by
  refine ⟨?_, ?_, ?_, ?_, ?_⟩
  · intro v hv
    rw [readNumericTransportParameter_enc _ _ (by omega)]
    refine ⟨"invalid value for max_packet_size", ?_⟩
    simp [applyNumericTransportParameter, initialMaxStreamDataBidiLocalParameterID,
          initialMaxStreamDataBidiRemoteParameterID, initialMaxStreamDataUniParameterID,
          initialMaxDataParameterID, initialMaxStreamsBidiParameterID,
          initialMaxStreamsUniParameterID, maxIdleTimeoutParameterID,
          maxPacketSizeParameterID, hv]
  · rw [readNumericTransportParameter_enc _ _ (by norm_num)]
    refine ⟨"invalid value for max_packet_size", ?_⟩
    simp [applyNumericTransportParameter, initialMaxStreamDataBidiLocalParameterID,
          initialMaxStreamDataBidiRemoteParameterID, initialMaxStreamDataUniParameterID,
          initialMaxDataParameterID, initialMaxStreamsBidiParameterID,
          initialMaxStreamsUniParameterID, maxIdleTimeoutParameterID,
          maxPacketSizeParameterID]
  · rw [readNumericTransportParameter_enc _ _ (by norm_num)]
    rw [applyNumeric_maxPacketSize _ (by norm_num)]
  · rw [readNumericTransportParameter_enc _ _ (by norm_num [maxAckDelayExponent])]
    refine ⟨"invalid value for ack_delay_exponent", ?_⟩
    simp [applyNumericTransportParameter, initialMaxStreamDataBidiLocalParameterID,
          initialMaxStreamDataBidiRemoteParameterID, initialMaxStreamDataUniParameterID,
          initialMaxDataParameterID, initialMaxStreamsBidiParameterID,
          initialMaxStreamsUniParameterID, maxIdleTimeoutParameterID,
          maxPacketSizeParameterID, ackDelayExponentParameterID, maxAckDelayExponent]
  · rw [readNumericTransportParameter_enc _ _ (by norm_num [maxAckDelayExponent])]
    rw [applyNumeric_ackDelayExponent _ (le_refl _)]

/-- C8 witness: the boundary behaviour at a concrete receiver and empty rest. -/
theorem boundary_values_witness :
    (∃ e, readNumericTransportParameter emptyTP 3 (varIntLen 1199)
        (writeVarInt 1199 ++ []) = .error e) ∧
    readNumericTransportParameter emptyTP 3 (varIntLen 1200)
        (writeVarInt 1200 ++ []) = .ok ({ emptyTP with maxPacketSize := 1200 }, []) :=
  ⟨(boundary_values emptyTP []).2.1, (boundary_values emptyTP []).2.2.1⟩

/-- C7: a decoded max_idle_timeout record always succeeds and stores the
maximum of the local floor and the peer-declared duration: a smaller peer
value decodes to the local minimum, a value at or above it is stored
verbatim. -/
theorem maxIdleTimeout_clamp (q : TransportParameters) {v : Nat}
    (hv : v ≤ maxByteCount) (rest : List Nat) :
    readNumericTransportParameter q 1 (varIntLen v) (writeVarInt v ++ rest) =
      .ok ({ q with maxIdleTimeout := max minRemoteIdleTimeout (wrap64 (v * millisecond)) }, rest) ∧
    (wrap64 (v * millisecond) < minRemoteIdleTimeout →
      max minRemoteIdleTimeout (wrap64 (v * millisecond)) = minRemoteIdleTimeout) ∧
    (minRemoteIdleTimeout ≤ wrap64 (v * millisecond) →
      max minRemoteIdleTimeout (wrap64 (v * millisecond)) = wrap64 (v * millisecond)) := by
  refine ⟨?_, fun h => max_eq_left (by linarith), fun h => max_eq_right h⟩
  rw [readNumericTransportParameter_enc _ _ hv]
  rw [applyNumeric_maxIdleTimeout]

/-- C7 witness: a 1-second peer idle timeout decodes to the 5-second local
minimum. -/
theorem maxIdleTimeout_clamp_witness :
    readNumericTransportParameter emptyTP 1 (varIntLen 1000)
        (writeVarInt 1000 ++ []) =
      .ok ({ emptyTP with maxIdleTimeout := max minRemoteIdleTimeout (wrap64 (1000 * millisecond)) }, []) ∧
    max minRemoteIdleTimeout (wrap64 (1000 * millisecond)) = minRemoteIdleTimeout :=
  ⟨(maxIdleTimeout_clamp emptyTP (by norm_num [maxByteCount]) []).1,
   (maxIdleTimeout_clamp emptyTP (by norm_num [maxByteCount]) []).2.1 (by decide)⟩

/-- The full case analysis of decoding a max_ack_delay record: out-of-range
error, negative-overflow to the infinite sentinel, or the value itself. -/
theorem readNumeric_maxAckDelay_cases (q : TransportParameters) {v : Nat}
    (hv : v ≤ maxByteCount) (rest : List Nat) :
    readNumericTransportParameter q 11 (varIntLen v) (writeVarInt v ++ rest) =
      (if maxMaxAckDelay ≤ wrap64 (v * millisecond) then
        .error "invalid value for max_ack_delay"
      else if wrap64 (v * millisecond) < 0 then
        .ok ({ q with maxAckDelay := infDuration }, rest)
      else
        .ok ({ q with maxAckDelay := wrap64 (v * millisecond) }, rest)) := by
  rw [readNumericTransportParameter_enc _ _ hv]
  have hcases : applyNumericTransportParameter q 11 v =
      (if maxMaxAckDelay ≤ wrap64 (v * millisecond) then
        .error "invalid value for max_ack_delay"
      else if wrap64 (v * millisecond) < 0 then
        .ok { q with maxAckDelay := infDuration }
      else
        .ok { q with maxAckDelay := wrap64 (v * millisecond) }) := by
    simp [applyNumericTransportParameter, initialMaxStreamDataBidiLocalParameterID,
          initialMaxStreamDataBidiRemoteParameterID, initialMaxStreamDataUniParameterID,
          initialMaxDataParameterID, initialMaxStreamsBidiParameterID,
          initialMaxStreamsUniParameterID, maxIdleTimeoutParameterID,
          maxPacketSizeParameterID, ackDelayExponentParameterID, maxAckDelayParameterID]
  rw [hcases]
  split_ifs <;> rfl

/-- C6: decoding a max_ack_delay record returns a value-out-of-range error
exactly when the decoded (wrapped) millisecond duration is at or above the
protocol maximum, and a wire value whose millisecond conversion overflows to
a negative duration is accepted and stored as the infinite-duration
sentinel. -/
theorem maxAckDelay_range (q : TransportParameters) {v : Nat}
    (hv : v ≤ maxByteCount) (rest : List Nat) :
    ((∃ e, readNumericTransportParameter q 11 (varIntLen v) (writeVarInt v ++ rest) =
        .error e) ↔ maxMaxAckDelay ≤ wrap64 (v * millisecond)) ∧
    (wrap64 (v * millisecond) < 0 →
      readNumericTransportParameter q 11 (varIntLen v) (writeVarInt v ++ rest) =
        .ok ({ q with maxAckDelay := infDuration }, rest)) ∧
    (0 ≤ wrap64 (v * millisecond) → wrap64 (v * millisecond) < maxMaxAckDelay →
      readNumericTransportParameter q 11 (varIntLen v) (writeVarInt v ++ rest) =
        .ok ({ q with maxAckDelay := wrap64 (v * millisecond) }, rest)) := by
  rw [readNumeric_maxAckDelay_cases q hv rest]
  have hmaxpos : (0 : Int) < maxMaxAckDelay := by norm_num [maxMaxAckDelay, millisecond]
  refine ⟨?_, ?_, ?_⟩
  · split_ifs with h1 h2
    · simp [h1]
    · simp [h1]
    · simp [h1]
  · intro hneg
    rw [if_neg (not_le.mpr (lt_trans hneg hmaxpos)), if_pos hneg]
  · intro h0 hlt
    rw [if_neg (not_le.mpr hlt), if_neg (not_lt.mpr h0)]

/-- C6 witness: the value 2^44 overflows to a negative duration and is stored
as the infinite sentinel; the value 16384 (the maximum in milliseconds) is
rejected. -/
theorem maxAckDelay_range_witness :
    readNumericTransportParameter emptyTP 11 (varIntLen (2 ^ 44))
        (writeVarInt (2 ^ 44) ++ []) =
      .ok ({ emptyTP with maxAckDelay := infDuration }, []) ∧
    (∃ e, readNumericTransportParameter emptyTP 11 (varIntLen 16384)
        (writeVarInt 16384 ++ []) = .error e) :=
  ⟨(maxAckDelay_range emptyTP (by norm_num [maxByteCount]) []).2.1 (by decide),
   ((maxAckDelay_range emptyTP (by norm_num [maxByteCount]) []).1).mpr (by decide)⟩


set_option maxHeartbeats 1000000 in
/-- C5: decoding the session-ticket encoding of `p` succeeds, reproduces
exactly the four flow-control limits, the two stream-count limits and the
active-connection-ID limit of `p`, and leaves every other field of the
decoded value at its protocol default (defaulted ack-delay values, the
unbounded packet-size sentinel, and the zero values of a fresh receiver). -/
theorem sessionTicket_roundtrip (p : TransportParameters)
    (h1 : p.initialMaxStreamDataBidiLocal ≤ maxByteCount)
    (h2 : p.initialMaxStreamDataBidiRemote ≤ maxByteCount)
    (h3 : p.initialMaxStreamDataUni ≤ maxByteCount)
    (h4 : p.initialMaxData ≤ maxByteCount)
    (h5 : p.maxBidiStreamNum ≤ maxByteCount)
    (h6 : p.maxUniStreamNum ≤ maxByteCount)
    (h7 : p.activeConnectionIDLimit ≤ maxByteCount) :
    unmarshalFromSessionTicket emptyTP (marshalForSessionTicket p) =
      ({ emptyTP with
         initialMaxStreamDataBidiLocal := p.initialMaxStreamDataBidiLocal,
         initialMaxStreamDataBidiRemote := p.initialMaxStreamDataBidiRemote,
         initialMaxStreamDataUni := p.initialMaxStreamDataUni,
         initialMaxData := p.initialMaxData,
         maxBidiStreamNum := p.maxBidiStreamNum,
         maxUniStreamNum := p.maxUniStreamNum,
         activeConnectionIDLimit := p.activeConnectionIDLimit,
         ackDelayExponent := defaultAckDelayExponent,
         maxAckDelay := defaultMaxAckDelay,
         maxPacketSize := maxByteCount }, none) := by
  unfold unmarshalFromSessionTicket marshalForSessionTicket
  simp only [marshalVarintParam, List.append_assoc, transportParameterMarshalingVersion,
    initialMaxStreamDataBidiLocalParameterID, initialMaxStreamDataBidiRemoteParameterID,
    initialMaxStreamDataUniParameterID, initialMaxDataParameterID,
    initialMaxStreamsBidiParameterID, initialMaxStreamsUniParameterID,
    activeConnectionIDLimitParameterID]
  rw [readVarInt_writeVarInt (by norm_num)]
  simp only [ne_eq, not_true_eq_false, if_false]
  unfold unmarshalGo
  rw [unmarshalLoop_numeric (by norm_num) h1 (applyNumeric_initialMaxStreamDataBidiLocal _ _)]
  rw [unmarshalLoop_numeric (by norm_num) h2 (applyNumeric_initialMaxStreamDataBidiRemote _ _)]
  rw [unmarshalLoop_numeric (by norm_num) h3 (applyNumeric_initialMaxStreamDataUni _ _)]
  rw [unmarshalLoop_numeric (by norm_num) h4 (applyNumeric_initialMaxData _ _)]
  rw [unmarshalLoop_numeric (by norm_num) h5 (applyNumeric_maxBidiStreamNum _ _)]
  rw [unmarshalLoop_numeric (by norm_num) h6 (applyNumeric_maxUniStreamNum _ _)]
  rw [unmarshalLoop_numeric_last (by norm_num) h7 (applyNumeric_activeConnectionIDLimit _ _)]
  simp [applyDefaults, findDuplicateParameter, findAdjacentDup, emptyTP,
        List.insertionSort, List.orderedInsert]

/-- C5 witness: the session-ticket round trip at a concrete parameter set. -/
theorem sessionTicket_roundtrip_witness :
    unmarshalFromSessionTicket emptyTP (marshalForSessionTicket sampleTP) =
      ({ emptyTP with
         initialMaxStreamDataBidiLocal := sampleTP.initialMaxStreamDataBidiLocal,
         initialMaxStreamDataBidiRemote := sampleTP.initialMaxStreamDataBidiRemote,
         initialMaxStreamDataUni := sampleTP.initialMaxStreamDataUni,
         initialMaxData := sampleTP.initialMaxData,
         maxBidiStreamNum := sampleTP.maxBidiStreamNum,
         maxUniStreamNum := sampleTP.maxUniStreamNum,
         activeConnectionIDLimit := sampleTP.activeConnectionIDLimit,
         ackDelayExponent := defaultAckDelayExponent,
         maxAckDelay := defaultMaxAckDelay,
         maxPacketSize := maxByteCount }, none) :=
  sessionTicket_roundtrip sampleTP (by norm_num [sampleTP, maxByteCount])
    (by norm_num [sampleTP, maxByteCount]) (by norm_num [sampleTP, maxByteCount])
    (by norm_num [sampleTP, maxByteCount]) (by norm_num [sampleTP, maxByteCount])
    (by norm_num [sampleTP, maxByteCount]) (by norm_num [sampleTP, maxByteCount])

/-- C2 (amended): every error return of `Unmarshal` is terminal for the call
and produces no complete decoded value, but the receiver is not restored to
its pre-call value. Each error arises in exactly one of two ways: a mid-walk
error stops the walk at the first failing record and is surfaced unchanged,
with no defaulting applied and no duplicate check run, the receiver keeping
the mutations applied before the error; or the walk completes and the
duplicate check raises the duplicate-parameter error, with the defaulting
pass already applied to the receiver. -/
theorem unmarshal_error_terminal (p : TransportParameters) (data : List Nat)
    (sentBy : Perspective) (tp : TransportParameters) (e : String)
    (h : unmarshalGo p data sentBy = (tp, some e)) :
    (∃ s : UState,
      unmarshalLoop sentBy (UState.mk p [] false false) data = (s, some e) ∧
      tp = s.p) ∨
    (∃ s : UState,
      unmarshalLoop sentBy (UState.mk p [] false false) data = (s, none) ∧
      (findDuplicateParameter s.parameterIDs).isSome = true ∧
      e = "received duplicate transport parameter" ∧ tp = applyDefaults s) := by
  unfold unmarshalGo at h
  split at h
  · rename_i s e' heq
    simp only [Prod.mk.injEq, Option.some.injEq] at h
    exact Or.inl ⟨s, by rw [heq, h.2], h.1.symm⟩
  · rename_i s heq
    split at h
    · rename_i x hdup
      simp only [Prod.mk.injEq, Option.some.injEq] at h
      exact Or.inr ⟨s, heq, by simp [hdup], h.2.symm, h.1.symm⟩
    · simp at h

/-- The receiver contents after decoding a buffer with a duplicated
initial_max_data record: the second value and the post-walk defaults. -/
def tpAfterDuplicate : TransportParameters :=
  { emptyTP with
    initialMaxData := 6
    ackDelayExponent := defaultAckDelayExponent
    maxAckDelay := defaultMaxAckDelay
    maxPacketSize := maxByteCount }

/-- C2 witness: a buffer with a duplicated initial_max_data record — the walk
completes, the defaulting pass runs, and the duplicate check raises the
error; the receiver keeps the second record's value and the defaults. -/
theorem unmarshal_error_terminal_witness :
    (∃ s : UState,
      unmarshalLoop .server (UState.mk emptyTP [] false false) [4, 1, 5, 4, 1, 6] =
        (s, some "received duplicate transport parameter") ∧
      tpAfterDuplicate = s.p) ∨
    (∃ s : UState,
      unmarshalLoop .server (UState.mk emptyTP [] false false) [4, 1, 5, 4, 1, 6] =
        (s, none) ∧
      (findDuplicateParameter s.parameterIDs).isSome = true ∧
      "received duplicate transport parameter" = "received duplicate transport parameter" ∧
      tpAfterDuplicate = applyDefaults s) :=
  unmarshal_error_terminal emptyTP [4, 1, 5, 4, 1, 6] .server tpAfterDuplicate
    "received duplicate transport parameter" (by decide)

set_option maxRecDepth 100000 in
/-- C2 counterexample: decoding the buffer holding an initial_max_data record
followed by a truncated record returns an error, yet the receiver is no
longer equal to its pre-call value — the first record's value was stored. -/
theorem unmarshal_partial_result_counterexample :
    (unmarshalGo emptyTP [4, 1, 5, 192] .server).2 = some "EOF" ∧
    (unmarshalGo emptyTP [4, 1, 5, 192] .server).1 ≠ emptyTP := by
  constructor <;> decide


/-! ## Buffers built from individually well-formed records (C3, C4) -/

/-- One encoded transport-parameter record: identifier, declared length,
payload. -/
def encodeRecord (rec : Nat × List Nat) : List Nat :=
  writeVarInt rec.1 ++ writeVarInt rec.2.length ++ rec.2

/-- A buffer that is the concatenation of encoded records. -/
def encodeRecords (recs : List (Nat × List Nat)) : List Nat :=
  (recs.map encodeRecord).join

/-- An individually well-formed, valid record `(id, payload)` as sent by
`sentBy`: for known numeric identifiers the payload is the canonical varint
encoding of an in-range value, the structured records carry the payloads the
decoder accepts, the three server-only records occur only when the sender is
the server, and anything with identifier 15 and up (including grease
identifiers) carries an arbitrary payload. -/
def WFRecord (sentBy : Perspective) (id : Nat) (payload : List Nat) : Prop :=
  id ≤ maxByteCount ∧ payload.length ≤ maxByteCount ∧
  (if id = 1 ∨ id = 4 ∨ id = 5 ∨ id = 6 ∨ id = 7 ∨ id = 8 ∨ id = 9 ∨ id = 14 then
    ∃ v, v ≤ maxByteCount ∧ payload = writeVarInt v
  else if id = 3 then
    ∃ v, 1200 ≤ v ∧ v ≤ maxByteCount ∧ payload = writeVarInt v
  else if id = 10 then
    ∃ v, v ≤ maxAckDelayExponent ∧ payload = writeVarInt v
  else if id = 11 then
    ∃ v, v ≤ maxByteCount ∧ wrap64 (v * millisecond) < maxMaxAckDelay ∧
      payload = writeVarInt v
  else if id = 13 then
    sentBy = Perspective.server ∧
      ∃ pa, ValidPreferredAddress pa ∧ payload = marshalPreferredAddress pa
  else if id = 12 then payload = []
  else if id = 2 then sentBy = Perspective.server ∧ payload.length = 16
  else if id = 0 then sentBy = Perspective.server
  else 15 ≤ id)

theorem encodeRecord_append (id : Nat) (payload rest : List Nat) :
    encodeRecord (id, payload) ++ rest =
      writeVarInt id ++ (writeVarInt payload.length ++ (payload ++ rest)) := by
  simp [encodeRecord]

theorem encodeRecords_cons (rec : Nat × List Nat) (t : List (Nat × List Nat)) :
    encodeRecords (rec :: t) = encodeRecord rec ++ encodeRecords t := rfl

theorem marshalPreferredAddress_length {pa : PreferredAddress}
    (hpa : ValidPreferredAddress pa) :
    (marshalPreferredAddress pa).length =
      4 + 2 + 16 + 2 + 1 + pa.connectionID.length + 16 := by
  obtain ⟨h4, _, h16, _, _, ht⟩ := hpa
  simp [marshalPreferredAddress, h4, h16, ht]
  omega

theorem applyNumeric_maxAckDelay_ok (q : TransportParameters) {v : Nat}
    (hlt : wrap64 (v * millisecond) < maxMaxAckDelay) :
    applyNumericTransportParameter q 11 v =
      .ok (if wrap64 (v * millisecond) < 0 then { q with maxAckDelay := infDuration }
           else { q with maxAckDelay := wrap64 (v * millisecond) }) := by
  have hcases : applyNumericTransportParameter q 11 v =
      (if maxMaxAckDelay ≤ wrap64 (v * millisecond) then
        .error "invalid value for max_ack_delay"
      else if wrap64 (v * millisecond) < 0 then
        .ok { q with maxAckDelay := infDuration }
      else
        .ok { q with maxAckDelay := wrap64 (v * millisecond) }) := by
    simp [applyNumericTransportParameter, initialMaxStreamDataBidiLocalParameterID,
          initialMaxStreamDataBidiRemoteParameterID, initialMaxStreamDataUniParameterID,
          initialMaxDataParameterID, initialMaxStreamsBidiParameterID,
          initialMaxStreamsUniParameterID, maxIdleTimeoutParameterID,
          maxPacketSizeParameterID, ackDelayExponentParameterID, maxAckDelayParameterID]
  rw [hcases, if_neg (not_le.mpr hlt)]
  split_ifs <;> rfl

theorem WFRecord_step {sentBy : Perspective} (s : UState) {id : Nat} {payload : List Nat}
    (rest : List Nat) (hwf : WFRecord sentBy id payload) :
    ∃ s' : UState,
      unmarshalStep sentBy s (encodeRecord (id, payload) ++ rest) = .ok (s', rest) ∧
      s'.parameterIDs = s.parameterIDs ++ [id] := by
  obtain ⟨hid62, hlen62, hbody⟩ := hwf
  rw [encodeRecord_append]
  split_ifs at hbody with h1 h3 h10 h11 h13 h12 h2 h0
  · obtain ⟨v, hv, rfl⟩ := hbody
    rw [writeVarInt_length hv]
    rcases h1 with rfl | rfl | rfl | rfl | rfl | rfl | rfl | rfl
    · exact ⟨_, unmarshalStep_numeric (by norm_num) hv (applyNumeric_maxIdleTimeout s.p v), rfl⟩
    · exact ⟨_, unmarshalStep_numeric (by norm_num) hv (applyNumeric_initialMaxData s.p v), rfl⟩
    · exact ⟨_, unmarshalStep_numeric (by norm_num) hv
        (applyNumeric_initialMaxStreamDataBidiLocal s.p v), rfl⟩
    · exact ⟨_, unmarshalStep_numeric (by norm_num) hv
        (applyNumeric_initialMaxStreamDataBidiRemote s.p v), rfl⟩
    · exact ⟨_, unmarshalStep_numeric (by norm_num) hv
        (applyNumeric_initialMaxStreamDataUni s.p v), rfl⟩
    · exact ⟨_, unmarshalStep_numeric (by norm_num) hv (applyNumeric_maxBidiStreamNum s.p v), rfl⟩
    · exact ⟨_, unmarshalStep_numeric (by norm_num) hv (applyNumeric_maxUniStreamNum s.p v), rfl⟩
    · exact ⟨_, unmarshalStep_numeric (by norm_num) hv
        (applyNumeric_activeConnectionIDLimit s.p v), rfl⟩
  · subst h3
    obtain ⟨v, h1200, hv, rfl⟩ := hbody
    rw [writeVarInt_length hv]
    exact ⟨_, unmarshalStep_numeric (by norm_num) hv (applyNumeric_maxPacketSize s.p h1200), rfl⟩
  · subst h10
    obtain ⟨v, hexp, rfl⟩ := hbody
    have hv : v ≤ 2 ^ 62 - 1 := by
      have h20 : maxAckDelayExponent = 20 := rfl
      omega
    rw [writeVarInt_length hv]
    exact ⟨_, unmarshalStep_numeric (by norm_num) hv (applyNumeric_ackDelayExponent s.p hexp), rfl⟩
  · subst h11
    obtain ⟨v, hv, hlt, rfl⟩ := hbody
    rw [writeVarInt_length hv]
    exact ⟨_, unmarshalStep_numeric (by norm_num) hv (applyNumeric_maxAckDelay_ok s.p hlt), rfl⟩
  · subst h13
    obtain ⟨hsrv, pa, hpa, rfl⟩ := hbody
    subst hsrv
    rw [marshalPreferredAddress_length hpa]
    exact ⟨_, unmarshalStep_preferredAddress rest hpa, rfl⟩
  · subst h12
    subst hbody
    simp only [List.length_nil, List.nil_append]
    exact ⟨_, unmarshalStep_disableActiveMigration rest, rfl⟩
  · subst h2
    obtain ⟨hsrv, hlen16⟩ := hbody
    subst hsrv
    rw [hlen16]
    exact ⟨_, unmarshalStep_statelessResetToken rest hlen16, rfl⟩
  · subst h0
    subst hbody
    exact ⟨_, unmarshalStep_originalConnectionID rest hlen62, rfl⟩
  · exact ⟨_, unmarshalStep_unknown hbody hid62 hlen62, rfl⟩

theorem unmarshalLoop_WFRecords {sentBy : Perspective} :
    ∀ recs : List (Nat × List Nat), (∀ rec ∈ recs, WFRecord sentBy rec.1 rec.2) →
      ∀ s : UState, ∃ s' : UState,
        unmarshalLoop sentBy s (encodeRecords recs) = (s', none) ∧
        s'.parameterIDs = s.parameterIDs ++ recs.map Prod.fst := by
  intro recs
  induction recs with
  | nil =>
    intro _ s
    exact ⟨s, unmarshalLoop_nil sentBy s, by simp⟩
  | cons rec t ih =>
    obtain ⟨id, payload⟩ := rec
    intro hwf s
    have hrec : WFRecord sentBy id payload := hwf (id, payload) (List.mem_cons_self _ _)
    obtain ⟨s1, hstep, hids1⟩ := WFRecord_step s (encodeRecords t) hrec
    have hne : encodeRecord (id, payload) ++ encodeRecords t ≠ [] := by
      rw [encodeRecord_append]
      exact writeVarInt_append_ne_nil hrec.1 _
    obtain ⟨s2, hloop2, hids2⟩ := ih (fun r hr => hwf r (List.mem_cons_of_mem _ hr)) s1
    refine ⟨s2, ?_, ?_⟩
    · rw [encodeRecords_cons, unmarshalLoop_cons hne hstep, hloop2]
    · rw [hids2, hids1]
      simp

/-- C3: a buffer that is a concatenation of individually well-formed, valid
records in which some parameter identifier occurs more than once — whatever
the identifiers (known, unknown or grease) and whatever the record values —
decodes to the duplicate-parameter error rather than a success, for either
sender role. -/
theorem duplicate_parameter_rejected (sentBy : Perspective) (p0 : TransportParameters)
    (recs : List (Nat × List Nat))
    (hwf : ∀ rec ∈ recs, WFRecord sentBy rec.1 rec.2)
    (hdup : ¬(recs.map Prod.fst).Nodup) :
    (unmarshalGo p0 (encodeRecords recs) sentBy).2 =
      some "received duplicate transport parameter" := by
  obtain ⟨s', hloop, hids⟩ := unmarshalLoop_WFRecords recs hwf (UState.mk p0 [] false false)
  have hids2 : s'.parameterIDs = recs.map Prod.fst := by simpa using hids
  have hnd : ¬findDuplicateParameter s'.parameterIDs = none := by
    rw [findDuplicateParameter_eq_none_iff, hids2]
    exact hdup
  unfold unmarshalGo
  rw [hloop]
  cases hfd : findDuplicateParameter s'.parameterIDs with
  | none => exact absurd hfd hnd
  | some x => simp only [hfd]

theorem WFRecord_numeric {sentBy : Perspective} {id v : Nat}
    (hid : id = 1 ∨ id = 4 ∨ id = 5 ∨ id = 6 ∨ id = 7 ∨ id = 8 ∨ id = 9 ∨ id = 14)
    (hv : v ≤ maxByteCount) : WFRecord sentBy id (writeVarInt v) := by
  refine ⟨?_, ?_, ?_⟩
  · have h62 : maxByteCount = 2 ^ 62 - 1 := rfl
    omega
  · rw [writeVarInt_length hv]
    exact varIntLen_le_max v
  · rw [if_pos hid]
    exact ⟨v, hv, rfl⟩

/-- C3 witness: two individually well-formed initial_max_data records
(identifier 4, values 5 and 6) still decode to the duplicate-parameter
error. -/
theorem duplicate_parameter_rejected_witness :
    (unmarshalGo emptyTP (encodeRecords [(4, writeVarInt 5), (4, writeVarInt 6)])
        Perspective.server).2 = some "received duplicate transport parameter" :=
  duplicate_parameter_rejected Perspective.server emptyTP
    [(4, writeVarInt 5), (4, writeVarInt 6)]
    (by
      intro rec hr
      simp only [List.mem_cons, List.not_mem_nil, or_false] at hr
      rcases hr with rfl | rfl
      · show WFRecord Perspective.server 4 (writeVarInt 5)
        exact WFRecord_numeric (by norm_num) (by norm_num [maxByteCount])
      · show WFRecord Perspective.server 4 (writeVarInt 6)
        exact WFRecord_numeric (by norm_num) (by norm_num [maxByteCount]))
    (by decide)


/-! ## Role gating (C4) -/

theorem WFRecord_of_server {id : Nat} {payload : List Nat}
    (hwf : WFRecord Perspective.server id payload)
    (hne : ¬(id = 13 ∨ id = 2 ∨ id = 0)) : WFRecord Perspective.client id payload := by
  obtain ⟨h1, h2, h3⟩ := hwf
  refine ⟨h1, h2, ?_⟩
  split_ifs at h3 ⊢ <;> first | exact h3 | (exfalso; omega)

theorem unmarshalStep_serverOnly_client {s : UState} {id : Nat} {payload : List Nat}
    (rest : List Nat) (hid : id = 13 ∨ id = 2 ∨ id = 0)
    (hlen62 : payload.length ≤ maxByteCount) :
    ∃ e : String,
      unmarshalStep Perspective.client s (encodeRecord (id, payload) ++ rest) =
        .error ({ s with parameterIDs := s.parameterIDs ++ [id] }, some e) ∧
      (e = "client sent a preferred_address" ∨
       e = "client sent a stateless_reset_token" ∨
       e = "client sent an original_connection_id") := by
  have hguard : ¬((payload ++ rest).length < payload.length) := by
    rw [List.length_append]; omega
  have hguard2 : ¬(payload.length + rest.length < payload.length) := by omega
  rw [encodeRecord_append]
  rcases hid with rfl | rfl | rfl
  · refine ⟨_, ?_, Or.inl rfl⟩
    simp [unmarshalStep, unmarshalStepDefault, readVarInt_writeVarInt,
          readVarInt_writeVarInt hlen62, hguard, hguard2,
          ackDelayExponentParameterID, maxAckDelayParameterID,
          initialMaxStreamDataBidiLocalParameterID,
          initialMaxStreamDataBidiRemoteParameterID,
          initialMaxStreamDataUniParameterID, initialMaxDataParameterID,
          initialMaxStreamsBidiParameterID, initialMaxStreamsUniParameterID,
          maxIdleTimeoutParameterID, maxPacketSizeParameterID,
          activeConnectionIDLimitParameterID, preferredAddressParameterID]
  · refine ⟨_, ?_, Or.inr (Or.inl rfl)⟩
    simp [unmarshalStep, unmarshalStepDefault, readVarInt_writeVarInt,
          readVarInt_writeVarInt hlen62, hguard, hguard2,
          ackDelayExponentParameterID, maxAckDelayParameterID,
          initialMaxStreamDataBidiLocalParameterID,
          initialMaxStreamDataBidiRemoteParameterID,
          initialMaxStreamDataUniParameterID, initialMaxDataParameterID,
          initialMaxStreamsBidiParameterID, initialMaxStreamsUniParameterID,
          maxIdleTimeoutParameterID, maxPacketSizeParameterID,
          activeConnectionIDLimitParameterID, preferredAddressParameterID,
          disableActiveMigrationParameterID, statelessResetTokenParameterID]
  · refine ⟨_, ?_, Or.inr (Or.inr rfl)⟩
    simp [unmarshalStep, unmarshalStepDefault, readVarInt_writeVarInt,
          readVarInt_writeVarInt hlen62, hguard, hguard2,
          ackDelayExponentParameterID, maxAckDelayParameterID,
          initialMaxStreamDataBidiLocalParameterID,
          initialMaxStreamDataBidiRemoteParameterID,
          initialMaxStreamDataUniParameterID, initialMaxDataParameterID,
          initialMaxStreamsBidiParameterID, initialMaxStreamsUniParameterID,
          maxIdleTimeoutParameterID, maxPacketSizeParameterID,
          activeConnectionIDLimitParameterID, preferredAddressParameterID,
          disableActiveMigrationParameterID, statelessResetTokenParameterID,
          originalConnectionIDParameterID]

theorem unmarshalLoop_client_roleError :
    ∀ recs : List (Nat × List Nat),
      (∀ rec ∈ recs, WFRecord Perspective.server rec.1 rec.2) →
      (∃ rec ∈ recs, rec.1 = 13 ∨ rec.1 = 2 ∨ rec.1 = 0) →
      ∀ s : UState, ∃ (s' : UState) (e : String),
        unmarshalLoop Perspective.client s (encodeRecords recs) = (s', some e) ∧
        (e = "client sent a preferred_address" ∨
         e = "client sent a stateless_reset_token" ∨
         e = "client sent an original_connection_id") := by
  intro recs
  induction recs with
  | nil =>
    intro _ hex _
    simp at hex
  | cons rec t ih =>
    obtain ⟨id, payload⟩ := rec
    intro hwf hex s
    have hrec : WFRecord Perspective.server id payload :=
      hwf (id, payload) (List.mem_cons_self _ _)
    have hne : encodeRecord (id, payload) ++ encodeRecords t ≠ [] := by
      rw [encodeRecord_append]
      exact writeVarInt_append_ne_nil hrec.1 _
    by_cases hhead : id = 13 ∨ id = 2 ∨ id = 0
    · obtain ⟨e, hstep, he⟩ :=
        unmarshalStep_serverOnly_client (s := s) (encodeRecords t) hhead hrec.2.1
      refine ⟨{ s with parameterIDs := s.parameterIDs ++ [id] }, e, ?_, he⟩
      rw [encodeRecords_cons]
      exact unmarshalLoop_exit hne hstep
    · have hcl : WFRecord Perspective.client id payload := WFRecord_of_server hrec hhead
      obtain ⟨s1, hstep, _⟩ := WFRecord_step s (encodeRecords t) hcl
      have hex2 : ∃ r ∈ t, r.1 = 13 ∨ r.1 = 2 ∨ r.1 = 0 := by
        obtain ⟨r, hr, hrid⟩ := hex
        rcases List.mem_cons.mp hr with rfl | hr2
        · exact absurd hrid hhead
        · exact ⟨r, hr2, hrid⟩
      obtain ⟨s', e, hloop, he⟩ :=
        ih (fun r hr => hwf r (List.mem_cons_of_mem _ hr)) hex2 s1
      refine ⟨s', e, ?_, he⟩
      rw [encodeRecords_cons, unmarshalLoop_cons hne hstep, hloop]

/-- C4: a buffer of individually well-formed records without duplicated
identifiers that contains a preferred_address, stateless_reset_token or
original_connection_id record decodes with a role-violation error when the
sender role is client, and succeeds when the sender role is server. -/
theorem role_gating (p0 : TransportParameters) (recs : List (Nat × List Nat))
    (hwf : ∀ rec ∈ recs, WFRecord Perspective.server rec.1 rec.2)
    (hnodup : (recs.map Prod.fst).Nodup)
    (hcontains : ∃ rec ∈ recs, rec.1 = 13 ∨ rec.1 = 2 ∨ rec.1 = 0) :
    (∃ e, (unmarshalGo p0 (encodeRecords recs) Perspective.client).2 = some e ∧
      (e = "client sent a preferred_address" ∨
       e = "client sent a stateless_reset_token" ∨
       e = "client sent an original_connection_id")) ∧
    (unmarshalGo p0 (encodeRecords recs) Perspective.server).2 = none := by
  constructor
  · obtain ⟨s', e, hloop, he⟩ :=
      unmarshalLoop_client_roleError recs hwf hcontains (UState.mk p0 [] false false)
    refine ⟨e, ?_, he⟩
    unfold unmarshalGo
    rw [hloop]
  · obtain ⟨s', hloop, hids⟩ := unmarshalLoop_WFRecords recs hwf (UState.mk p0 [] false false)
    have hids2 : s'.parameterIDs = recs.map Prod.fst := by simpa using hids
    have hfd : findDuplicateParameter s'.parameterIDs = none := by
      rw [findDuplicateParameter_eq_none_iff, hids2]
      exact hnodup
    unfold unmarshalGo
    rw [hloop]
    simp only [hfd]

theorem WFRecord_statelessResetToken {token : List Nat} (h : token.length = 16) :
    WFRecord Perspective.server 2 token := by
  refine ⟨by norm_num [maxByteCount], ?_, ?_⟩
  · rw [h]
    norm_num [maxByteCount]
  · norm_num
    exact h

/-- C4 witness: a buffer holding one well-formed stateless_reset_token record
fails with the role-violation error when decoded as sent by the client and
succeeds when decoded as sent by the server. -/
theorem role_gating_witness :
    (∃ e, (unmarshalGo emptyTP (encodeRecords [(2, List.replicate 16 0)])
        Perspective.client).2 = some e ∧
      (e = "client sent a preferred_address" ∨
       e = "client sent a stateless_reset_token" ∨
       e = "client sent an original_connection_id")) ∧
    (unmarshalGo emptyTP (encodeRecords [(2, List.replicate 16 0)])
        Perspective.server).2 = none :=
  role_gating emptyTP [(2, List.replicate 16 0)]
    (by
      intro rec hr
      simp only [List.mem_cons, List.not_mem_nil, or_false] at hr
      subst hr
      show WFRecord Perspective.server 2 (List.replicate 16 0)
      exact WFRecord_statelessResetToken (by simp))
    (by decide)
    ⟨(2, List.replicate 16 0), by simp, Or.inr (Or.inl rfl)⟩


/-! ## Frame effect of the in-place decode (C10) -/

/-- Per-record frame: a record with identifier `id` leaves every field owned
by a different identifier unchanged. -/
def FieldFrame (id : Nat) (q0 q : TransportParameters) : Prop :=
  (id ≠ 0 → q.originalConnectionID = q0.originalConnectionID) ∧
  (id ≠ 1 → q.maxIdleTimeout = q0.maxIdleTimeout) ∧
  (id ≠ 2 → q.statelessResetToken = q0.statelessResetToken) ∧
  (id ≠ 3 → q.maxPacketSize = q0.maxPacketSize) ∧
  (id ≠ 4 → q.initialMaxData = q0.initialMaxData) ∧
  (id ≠ 5 → q.initialMaxStreamDataBidiLocal = q0.initialMaxStreamDataBidiLocal) ∧
  (id ≠ 6 → q.initialMaxStreamDataBidiRemote = q0.initialMaxStreamDataBidiRemote) ∧
  (id ≠ 7 → q.initialMaxStreamDataUni = q0.initialMaxStreamDataUni) ∧
  (id ≠ 8 → q.maxBidiStreamNum = q0.maxBidiStreamNum) ∧
  (id ≠ 9 → q.maxUniStreamNum = q0.maxUniStreamNum) ∧
  (id ≠ 10 → q.ackDelayExponent = q0.ackDelayExponent) ∧
  (id ≠ 11 → q.maxAckDelay = q0.maxAckDelay) ∧
  (id ≠ 12 → q.disableActiveMigration = q0.disableActiveMigration) ∧
  (id ≠ 13 → q.preferredAddress = q0.preferredAddress) ∧
  (id ≠ 14 → q.activeConnectionIDLimit = q0.activeConnectionIDLimit)

/-- Walk-level frame: every identifier recorded before is still recorded, and
a field whose identifier was never recorded (and the two read flags) still
holds its starting value. -/
def PreservesAbsent (s0 s : UState) : Prop :=
  (∀ x ∈ s0.parameterIDs, x ∈ s.parameterIDs) ∧
  (0 ∉ s.parameterIDs → s.p.originalConnectionID = s0.p.originalConnectionID) ∧
  (1 ∉ s.parameterIDs → s.p.maxIdleTimeout = s0.p.maxIdleTimeout) ∧
  (2 ∉ s.parameterIDs → s.p.statelessResetToken = s0.p.statelessResetToken) ∧
  (3 ∉ s.parameterIDs → s.p.maxPacketSize = s0.p.maxPacketSize) ∧
  (4 ∉ s.parameterIDs → s.p.initialMaxData = s0.p.initialMaxData) ∧
  (5 ∉ s.parameterIDs → s.p.initialMaxStreamDataBidiLocal = s0.p.initialMaxStreamDataBidiLocal) ∧
  (6 ∉ s.parameterIDs → s.p.initialMaxStreamDataBidiRemote = s0.p.initialMaxStreamDataBidiRemote) ∧
  (7 ∉ s.parameterIDs → s.p.initialMaxStreamDataUni = s0.p.initialMaxStreamDataUni) ∧
  (8 ∉ s.parameterIDs → s.p.maxBidiStreamNum = s0.p.maxBidiStreamNum) ∧
  (9 ∉ s.parameterIDs → s.p.maxUniStreamNum = s0.p.maxUniStreamNum) ∧
  (10 ∉ s.parameterIDs → s.p.ackDelayExponent = s0.p.ackDelayExponent ∧
    s.ackDelayExponentRead = s0.ackDelayExponentRead) ∧
  (11 ∉ s.parameterIDs → s.p.maxAckDelay = s0.p.maxAckDelay ∧
    s.maxAckDelayRead = s0.maxAckDelayRead) ∧
  (12 ∉ s.parameterIDs → s.p.disableActiveMigration = s0.p.disableActiveMigration) ∧
  (13 ∉ s.parameterIDs → s.p.preferredAddress = s0.p.preferredAddress) ∧
  (14 ∉ s.parameterIDs → s.p.activeConnectionIDLimit = s0.p.activeConnectionIDLimit)

theorem PreservesAbsent_refl (s : UState) : PreservesAbsent s s := by
  unfold PreservesAbsent
  exact ⟨fun x hx => hx, by simp⟩


theorem PreservesAbsent_trans {s0 s1 s2 : UState}
    (h01 : PreservesAbsent s0 s1) (h12 : PreservesAbsent s1 s2) :
    PreservesAbsent s0 s2 := by
  obtain ⟨m1, a0, a1, a2, a3, a4, a5, a6, a7, a8, a9, a10, a11, a12, a13, a14⟩ := h01
  obtain ⟨m2, b0, b1, b2, b3, b4, b5, b6, b7, b8, b9, b10, b11, b12, b13, b14⟩ := h12
  have c : ∀ k : Nat, k ∉ s2.parameterIDs → k ∉ s1.parameterIDs :=
    fun k hk hmem => hk (m2 k hmem)
  refine ⟨fun x hx => m2 x (m1 x hx),
    fun hk => (b0 hk).trans (a0 (c 0 hk)),
    fun hk => (b1 hk).trans (a1 (c 1 hk)),
    fun hk => (b2 hk).trans (a2 (c 2 hk)),
    fun hk => (b3 hk).trans (a3 (c 3 hk)),
    fun hk => (b4 hk).trans (a4 (c 4 hk)),
    fun hk => (b5 hk).trans (a5 (c 5 hk)),
    fun hk => (b6 hk).trans (a6 (c 6 hk)),
    fun hk => (b7 hk).trans (a7 (c 7 hk)),
    fun hk => (b8 hk).trans (a8 (c 8 hk)),
    fun hk => (b9 hk).trans (a9 (c 9 hk)),
    fun hk => ⟨((b10 hk).1).trans ((a10 (c 10 hk)).1), ((b10 hk).2).trans ((a10 (c 10 hk)).2)⟩,
    fun hk => ⟨((b11 hk).1).trans ((a11 (c 11 hk)).1), ((b11 hk).2).trans ((a11 (c 11 hk)).2)⟩,
    fun hk => (b12 hk).trans (a12 (c 12 hk)),
    fun hk => (b13 hk).trans (a13 (c 13 hk)),
    fun hk => (b14 hk).trans (a14 (c 14 hk))⟩

theorem PreservesAbsent_single {s s' : UState} {id : Nat}
    (hids : s'.parameterIDs = s.parameterIDs ++ [id])
    (hexp : id ≠ 10 → s'.ackDelayExponentRead = s.ackDelayExponentRead)
    (hmad : id ≠ 11 → s'.maxAckDelayRead = s.maxAckDelayRead)
    (hf : FieldFrame id s.p s'.p) : PreservesAbsent s s' := by
  obtain ⟨g0, g1, g2, g3, g4, g5, g6, g7, g8, g9, g10, g11, g12, g13, g14⟩ := hf
  have hmem : ∀ k : Nat, k ∉ s'.parameterIDs → id ≠ k := by
    intro k hk he
    rw [hids] at hk
    exact hk (List.mem_append_right _ (by simp [he]))
  refine ⟨?_, fun hk => g0 (hmem 0 hk), fun hk => g1 (hmem 1 hk),
    fun hk => g2 (hmem 2 hk), fun hk => g3 (hmem 3 hk), fun hk => g4 (hmem 4 hk),
    fun hk => g5 (hmem 5 hk), fun hk => g6 (hmem 6 hk), fun hk => g7 (hmem 7 hk),
    fun hk => g8 (hmem 8 hk), fun hk => g9 (hmem 9 hk),
    fun hk => ⟨g10 (hmem 10 hk), hexp (hmem 10 hk)⟩,
    fun hk => ⟨g11 (hmem 11 hk), hmad (hmem 11 hk)⟩,
    fun hk => g12 (hmem 12 hk), fun hk => g13 (hmem 13 hk),
    fun hk => g14 (hmem 14 hk)⟩
  intro x hx
  rw [hids]
  exact List.mem_append_left _ hx

theorem FieldFrame_refl (id : Nat) (q : TransportParameters) : FieldFrame id q q := by
  unfold FieldFrame
  simp

theorem FieldFrame_preferredAddress (q : TransportParameters) (x : Option PreferredAddress) :
    FieldFrame 13 q { q with preferredAddress := x } := by
  unfold FieldFrame
  norm_num

theorem FieldFrame_disableActiveMigration (q : TransportParameters) (x : Bool) :
    FieldFrame 12 q { q with disableActiveMigration := x } := by
  unfold FieldFrame
  norm_num

theorem FieldFrame_statelessResetToken (q : TransportParameters) (x : Option (List Nat)) :
    FieldFrame 2 q { q with statelessResetToken := x } := by
  unfold FieldFrame
  norm_num

theorem FieldFrame_originalConnectionID (q : TransportParameters) (x : List Nat) :
    FieldFrame 0 q { q with originalConnectionID := x } := by
  unfold FieldFrame
  norm_num

theorem applyNumeric_maxAckDelay_cases (q : TransportParameters) (v : Nat) :
    applyNumericTransportParameter q maxAckDelayParameterID v =
      (if maxMaxAckDelay ≤ wrap64 (v * millisecond) then
        .error "invalid value for max_ack_delay"
      else if wrap64 (v * millisecond) < 0 then
        .ok { q with maxAckDelay := infDuration }
      else
        .ok { q with maxAckDelay := wrap64 (v * millisecond) }) := by
  simp [applyNumericTransportParameter, initialMaxStreamDataBidiLocalParameterID,
        initialMaxStreamDataBidiRemoteParameterID, initialMaxStreamDataUniParameterID,
        initialMaxDataParameterID, initialMaxStreamsBidiParameterID,
        initialMaxStreamsUniParameterID, maxIdleTimeoutParameterID,
        maxPacketSizeParameterID, ackDelayExponentParameterID, maxAckDelayParameterID]

theorem applyNumeric_frame {q : TransportParameters} {id v : Nat}
    {q' : TransportParameters}
    (h : applyNumericTransportParameter q id v = .ok q') : FieldFrame id q q' := by
  unfold FieldFrame
  by_cases e10 : id = maxAckDelayParameterID
  · subst e10
    rw [applyNumeric_maxAckDelay_cases] at h
    split at h
    · cases h
    split at h
    all_goals cases h
    all_goals
      refine ⟨?_, ?_, ?_, ?_, ?_, ?_, ?_, ?_, ?_, ?_, ?_, ?_, ?_, ?_, ?_⟩ <;>
        intro hne <;> first | (exact absurd rfl hne) | rfl
  unfold applyNumericTransportParameter at h
  by_cases e1 : id = initialMaxStreamDataBidiLocalParameterID
  · rw [if_pos e1] at h
    cases h
    subst e1
    refine ⟨?_, ?_, ?_, ?_, ?_, ?_, ?_, ?_, ?_, ?_, ?_, ?_, ?_, ?_, ?_⟩ <;>
      intro hne <;> first | (exact absurd rfl hne) | rfl
  rw [if_neg e1] at h
  by_cases e2 : id = initialMaxStreamDataBidiRemoteParameterID
  · rw [if_pos e2] at h
    cases h
    subst e2
    refine ⟨?_, ?_, ?_, ?_, ?_, ?_, ?_, ?_, ?_, ?_, ?_, ?_, ?_, ?_, ?_⟩ <;>
      intro hne <;> first | (exact absurd rfl hne) | rfl
  rw [if_neg e2] at h
  by_cases e3 : id = initialMaxStreamDataUniParameterID
  · rw [if_pos e3] at h
    cases h
    subst e3
    refine ⟨?_, ?_, ?_, ?_, ?_, ?_, ?_, ?_, ?_, ?_, ?_, ?_, ?_, ?_, ?_⟩ <;>
      intro hne <;> first | (exact absurd rfl hne) | rfl
  rw [if_neg e3] at h
  by_cases e4 : id = initialMaxDataParameterID
  · rw [if_pos e4] at h
    cases h
    subst e4
    refine ⟨?_, ?_, ?_, ?_, ?_, ?_, ?_, ?_, ?_, ?_, ?_, ?_, ?_, ?_, ?_⟩ <;>
      intro hne <;> first | (exact absurd rfl hne) | rfl
  rw [if_neg e4] at h
  by_cases e5 : id = initialMaxStreamsBidiParameterID
  · rw [if_pos e5] at h
    cases h
    subst e5
    refine ⟨?_, ?_, ?_, ?_, ?_, ?_, ?_, ?_, ?_, ?_, ?_, ?_, ?_, ?_, ?_⟩ <;>
      intro hne <;> first | (exact absurd rfl hne) | rfl
  rw [if_neg e5] at h
  by_cases e6 : id = initialMaxStreamsUniParameterID
  · rw [if_pos e6] at h
    cases h
    subst e6
    refine ⟨?_, ?_, ?_, ?_, ?_, ?_, ?_, ?_, ?_, ?_, ?_, ?_, ?_, ?_, ?_⟩ <;>
      intro hne <;> first | (exact absurd rfl hne) | rfl
  rw [if_neg e6] at h
  by_cases e7 : id = maxIdleTimeoutParameterID
  · rw [if_pos e7] at h
    cases h
    subst e7
    refine ⟨?_, ?_, ?_, ?_, ?_, ?_, ?_, ?_, ?_, ?_, ?_, ?_, ?_, ?_, ?_⟩ <;>
      intro hne <;> first | (exact absurd rfl hne) | rfl
  rw [if_neg e7] at h
  by_cases e8 : id = maxPacketSizeParameterID
  · rw [if_pos e8] at h
    split at h
    · cases h
    cases h
    subst e8
    refine ⟨?_, ?_, ?_, ?_, ?_, ?_, ?_, ?_, ?_, ?_, ?_, ?_, ?_, ?_, ?_⟩ <;>
      intro hne <;> first | (exact absurd rfl hne) | rfl
  rw [if_neg e8] at h
  by_cases e9 : id = ackDelayExponentParameterID
  · rw [if_pos e9] at h
    split at h
    · cases h
    cases h
    subst e9
    refine ⟨?_, ?_, ?_, ?_, ?_, ?_, ?_, ?_, ?_, ?_, ?_, ?_, ?_, ?_, ?_⟩ <;>
      intro hne <;> first | (exact absurd rfl hne) | rfl
  rw [if_neg e9] at h
  rw [if_neg e10] at h
  by_cases e11 : id = activeConnectionIDLimitParameterID
  · rw [if_pos e11] at h
    cases h
    subst e11
    refine ⟨?_, ?_, ?_, ?_, ?_, ?_, ?_, ?_, ?_, ?_, ?_, ?_, ?_, ?_, ?_⟩ <;>
      intro hne <;> first | (exact absurd rfl hne) | rfl
  rw [if_neg e11] at h
  cases h

theorem readNumeric_ok_apply {q : TransportParameters} {id len : Nat} {r : List Nat}
    {q' : TransportParameters} {rest : List Nat}
    (h : readNumericTransportParameter q id len r = .ok (q', rest)) :
    ∃ v, applyNumericTransportParameter q id v = .ok q' := by
  unfold readNumericTransportParameter at h
  split at h
  · cases h
  rename_i v r2 hv
  split at h
  · cases h
  split at h
  · cases h
  rename_i p2 hap
  cases h
  exact ⟨v, hap⟩

theorem readPreferredAddress_ok {q : TransportParameters} {len : Nat} {r : List Nat}
    {q' : TransportParameters} {rest : List Nat}
    (h : readPreferredAddress q len r = .ok (q', rest)) :
    ∃ pa, q' = { q with preferredAddress := some pa } := by
  unfold readPreferredAddress at h
  split at h
  · cases h
  split at h
  · cases h
  split at h
  · cases h
  split at h
  · cases h
  split at h
  · cases h
  split at h
  · cases h
  split at h
  · cases h
  split at h
  · cases h
  cases h
  exact ⟨_, rfl⟩


theorem unmarshalStep_error_some {sentBy : Perspective} {s : UState} {data : List Nat}
    {s1 : UState} {m : Option String}
    (h : unmarshalStep sentBy s data = .error (s1, m)) : ∃ e, m = some e := by
  delta unmarshalStep at h
  split at h
  · cases h
    exact ⟨_, rfl⟩
  split at h
  · cases h
    exact ⟨_, rfl⟩
  split at h
  · split at h
    · cases h
      exact ⟨_, rfl⟩
    · cases h
  split at h
  · split at h
    · cases h
      exact ⟨_, rfl⟩
    · cases h
  split at h
  · split at h
    · cases h
      exact ⟨_, rfl⟩
    · cases h
  delta unmarshalStepDefault at h
  split at h
  · cases h
    exact ⟨_, rfl⟩
  split at h
  · split at h
    · cases h
      exact ⟨_, rfl⟩
    split at h
    · cases h
      exact ⟨_, rfl⟩
    · cases h
  split at h
  · split at h
    · cases h
      exact ⟨_, rfl⟩
    · cases h
  split at h
  · split at h
    · cases h
      exact ⟨_, rfl⟩
    split at h
    · cases h
      exact ⟨_, rfl⟩
    · cases h
  split at h
  · split at h
    · cases h
      exact ⟨_, rfl⟩
    · cases h
  cases h

theorem unmarshalStep_preserves {sentBy : Perspective} {s : UState} {data : List Nat}
    {s' : UState} {rest : List Nat}
    (h : unmarshalStep sentBy s data = .ok (s', rest)) : PreservesAbsent s s' := by
  unfold unmarshalStep at h
  split at h
  · cases h
  rename_i paramID r1 hv1
  split at h
  · cases h
  rename_i paramLen r2 hv2
  split at h
  · rename_i h10
    split at h
    · cases h
    rename_i p2 rest2 hnum
    cases h
    obtain ⟨v, hap⟩ := readNumeric_ok_apply hnum
    subst h10
    exact PreservesAbsent_single rfl (fun hne => absurd rfl hne) (fun _ => rfl)
      (applyNumeric_frame hap)
  split at h
  · rename_i h11
    split at h
    · cases h
    rename_i p2 rest2 hnum
    cases h
    obtain ⟨v, hap⟩ := readNumeric_ok_apply hnum
    subst h11
    exact PreservesAbsent_single rfl (fun _ => rfl) (fun hne => absurd rfl hne)
      (applyNumeric_frame hap)
  split at h
  · split at h
    · cases h
    rename_i p2 rest2 hnum
    cases h
    obtain ⟨v, hap⟩ := readNumeric_ok_apply hnum
    exact PreservesAbsent_single rfl (fun _ => rfl) (fun _ => rfl)
      (applyNumeric_frame hap)
  unfold unmarshalStepDefault at h
  split at h
  · cases h
  split at h
  · rename_i h13
    split at h
    · cases h
    split at h
    · cases h
    rename_i p2 rest2 hpa
    cases h
    obtain ⟨pa, hq⟩ := readPreferredAddress_ok hpa
    subst h13
    refine PreservesAbsent_single rfl (fun _ => rfl) (fun _ => rfl) ?_
    rw [hq]
    exact FieldFrame_preferredAddress s.p (some pa)
  split at h
  · rename_i h12
    split at h
    · cases h
    cases h
    subst h12
    exact PreservesAbsent_single rfl (fun _ => rfl) (fun _ => rfl)
      (FieldFrame_disableActiveMigration s.p true)
  split at h
  · rename_i h2
    split at h
    · cases h
    split at h
    · cases h
    cases h
    subst h2
    exact PreservesAbsent_single rfl (fun _ => rfl) (fun _ => rfl)
      (FieldFrame_statelessResetToken s.p (some (r2.take 16)))
  split at h
  · rename_i h0
    split at h
    · cases h
    cases h
    subst h0
    exact PreservesAbsent_single rfl (fun _ => rfl) (fun _ => rfl)
      (FieldFrame_originalConnectionID s.p (r2.take paramLen))
  cases h
  exact PreservesAbsent_single rfl (fun _ => rfl) (fun _ => rfl)
    (FieldFrame_refl paramID s.p)

theorem unmarshalLoopFuel_preserves {sentBy : Perspective} :
    ∀ (f : Nat) (s0 : UState) (data : List Nat) {s : UState},
      unmarshalLoopFuel sentBy f s0 data = (s, none) → PreservesAbsent s0 s := by
  intro f
  induction f with
  | zero =>
    intro s0 data s h
    unfold unmarshalLoopFuel at h
    cases h
    exact PreservesAbsent_refl s0
  | succ g ih =>
    intro s0 data s h
    by_cases hd : data = []
    · have hred : unmarshalLoopFuel sentBy (g + 1) s0 data = (s0, none) := by
        conv_lhs => unfold unmarshalLoopFuel
        rw [if_pos hd]
      rw [hred] at h
      cases h
      exact PreservesAbsent_refl s0
    · cases hstep : unmarshalStep sentBy s0 data with
      | error exit =>
        have hred : unmarshalLoopFuel sentBy (g + 1) s0 data = exit := by
          conv_lhs => unfold unmarshalLoopFuel
          rw [if_neg hd, hstep]
        rw [hred] at h
        obtain ⟨s1, m⟩ := exit
        cases h
        obtain ⟨e, he⟩ := unmarshalStep_error_some hstep
        cases he
      | ok pr =>
        obtain ⟨s1, rest⟩ := pr
        have hred : unmarshalLoopFuel sentBy (g + 1) s0 data =
            unmarshalLoopFuel sentBy g s1 rest := by
          conv_lhs => unfold unmarshalLoopFuel
          rw [if_neg hd, hstep]
        rw [hred] at h
        exact PreservesAbsent_trans (unmarshalStep_preserves hstep) (ih s1 rest h)

theorem unmarshalLoop_preserves {sentBy : Perspective} {s0 : UState} {data : List Nat}
    {s : UState} (h : unmarshalLoop sentBy s0 data = (s, none)) :
    PreservesAbsent s0 s :=
  unmarshalLoopFuel_preserves (data.length + 1) s0 data h


theorem applyDefaults_fields (s : UState) :
    (applyDefaults s).originalConnectionID = s.p.originalConnectionID ∧
    (applyDefaults s).maxIdleTimeout = s.p.maxIdleTimeout ∧
    (applyDefaults s).statelessResetToken = s.p.statelessResetToken ∧
    (applyDefaults s).initialMaxData = s.p.initialMaxData ∧
    (applyDefaults s).initialMaxStreamDataBidiLocal = s.p.initialMaxStreamDataBidiLocal ∧
    (applyDefaults s).initialMaxStreamDataBidiRemote = s.p.initialMaxStreamDataBidiRemote ∧
    (applyDefaults s).initialMaxStreamDataUni = s.p.initialMaxStreamDataUni ∧
    (applyDefaults s).maxBidiStreamNum = s.p.maxBidiStreamNum ∧
    (applyDefaults s).maxUniStreamNum = s.p.maxUniStreamNum ∧
    (applyDefaults s).disableActiveMigration = s.p.disableActiveMigration ∧
    (applyDefaults s).preferredAddress = s.p.preferredAddress ∧
    (applyDefaults s).activeConnectionIDLimit = s.p.activeConnectionIDLimit ∧
    (applyDefaults s).maxPacketSize =
      (if s.p.maxPacketSize = 0 then maxByteCount else s.p.maxPacketSize) ∧
    (s.ackDelayExponentRead = false →
      (applyDefaults s).ackDelayExponent = defaultAckDelayExponent) ∧
    (s.maxAckDelayRead = false → (applyDefaults s).maxAckDelay = defaultMaxAckDelay) := by
  unfold applyDefaults
  by_cases hA : s.ackDelayExponentRead <;> by_cases hM : s.maxAckDelayRead <;>
    simp only [hA, hM, if_true, if_false, Bool.true_eq_false, Bool.false_eq_true] <;>
      split_ifs <;> simp_all

set_option maxHeartbeats 1000000 in
/-- C10: the decoder mutates its receiver in place and never resets a field
it did not read — after a successful decode, every field whose parameter
identifier was absent from the buffer keeps the value the receiver held
before the call, except that ack_delay_exponent and max_ack_delay fall back
to their protocol defaults when never seen and max_packet_size becomes the
unbounded sentinel when still zero; in particular a receiver
disable_active_migration already set to true stays true when the buffer has
no such record. -/
theorem unmarshal_frame_effect (p : TransportParameters) (data : List Nat)
    (sentBy : Perspective) (tp : TransportParameters)
    (h : unmarshalGo p data sentBy = (tp, none)) :
    ∃ s : UState,
      unmarshalLoop sentBy (UState.mk p [] false false) data = (s, none) ∧
      tp = applyDefaults s ∧
      (0 ∉ s.parameterIDs → tp.originalConnectionID = p.originalConnectionID) ∧
      (1 ∉ s.parameterIDs → tp.maxIdleTimeout = p.maxIdleTimeout) ∧
      (2 ∉ s.parameterIDs → tp.statelessResetToken = p.statelessResetToken) ∧
      (3 ∉ s.parameterIDs → tp.maxPacketSize =
        (if p.maxPacketSize = 0 then maxByteCount else p.maxPacketSize)) ∧
      (4 ∉ s.parameterIDs → tp.initialMaxData = p.initialMaxData) ∧
      (5 ∉ s.parameterIDs → tp.initialMaxStreamDataBidiLocal = p.initialMaxStreamDataBidiLocal) ∧
      (6 ∉ s.parameterIDs → tp.initialMaxStreamDataBidiRemote = p.initialMaxStreamDataBidiRemote) ∧
      (7 ∉ s.parameterIDs → tp.initialMaxStreamDataUni = p.initialMaxStreamDataUni) ∧
      (8 ∉ s.parameterIDs → tp.maxBidiStreamNum = p.maxBidiStreamNum) ∧
      (9 ∉ s.parameterIDs → tp.maxUniStreamNum = p.maxUniStreamNum) ∧
      (10 ∉ s.parameterIDs → tp.ackDelayExponent = defaultAckDelayExponent) ∧
      (11 ∉ s.parameterIDs → tp.maxAckDelay = defaultMaxAckDelay) ∧
      (12 ∉ s.parameterIDs → tp.disableActiveMigration = p.disableActiveMigration) ∧
      (13 ∉ s.parameterIDs → tp.preferredAddress = p.preferredAddress) ∧
      (14 ∉ s.parameterIDs → tp.activeConnectionIDLimit = p.activeConnectionIDLimit) := by
  unfold unmarshalGo at h
  split at h
  · rename_i s e heq
    simp at h
  · rename_i s heq
    split at h
    · simp at h
    · simp only [Prod.mk.injEq] at h
      obtain ⟨htp, -⟩ := h
      have hpres := unmarshalLoop_preserves heq
      obtain ⟨mono, a0, a1, a2, a3, a4, a5, a6, a7, a8, a9, a10, a11, a12, a13, a14⟩ := hpres
      obtain ⟨d0, d1, d2, d4, d5, d6, d7, d8, d9, d12, d13, d14, d3, dexp, dmad⟩ :=
        applyDefaults_fields s
      subst htp
      refine ⟨s, heq, rfl, ?_, ?_, ?_, ?_, ?_, ?_, ?_, ?_, ?_, ?_, ?_, ?_, ?_, ?_, ?_⟩
      · intro hk
        rw [d0]
        exact a0 hk
      · intro hk
        rw [d1]
        exact a1 hk
      · intro hk
        rw [d2]
        exact a2 hk
      · intro hk
        rw [d3, a3 hk]
      · intro hk
        rw [d4]
        exact a4 hk
      · intro hk
        rw [d5]
        exact a5 hk
      · intro hk
        rw [d6]
        exact a6 hk
      · intro hk
        rw [d7]
        exact a7 hk
      · intro hk
        rw [d8]
        exact a8 hk
      · intro hk
        rw [d9]
        exact a9 hk
      · intro hk
        exact dexp (a10 hk).2
      · intro hk
        exact dmad (a11 hk).2
      · intro hk
        rw [d12]
        exact a12 hk
      · intro hk
        rw [d13]
        exact a13 hk
      · intro hk
        rw [d14]
        exact a14 hk

/-- The receiver value used by the C10 witness: disable_active_migration
already set before the call. -/
def tpMigrationIn : TransportParameters :=
  { emptyTP with disableActiveMigration := true }

set_option maxRecDepth 100000 in
/-- C10 witness: decoding the empty buffer into a receiver whose
disable_active_migration is already true succeeds, leaves it true, and only
applies the three defaulting rules. -/
theorem unmarshal_frame_effect_witness :
    ∃ s : UState,
      unmarshalLoop Perspective.server (UState.mk tpMigrationIn [] false false) [] =
        (s, none) ∧
      applyDefaults (UState.mk tpMigrationIn [] false false) = applyDefaults s ∧
      (0 ∉ s.parameterIDs →
        (applyDefaults (UState.mk tpMigrationIn [] false false)).originalConnectionID =
          tpMigrationIn.originalConnectionID) ∧
      (1 ∉ s.parameterIDs →
        (applyDefaults (UState.mk tpMigrationIn [] false false)).maxIdleTimeout =
          tpMigrationIn.maxIdleTimeout) ∧
      (2 ∉ s.parameterIDs →
        (applyDefaults (UState.mk tpMigrationIn [] false false)).statelessResetToken =
          tpMigrationIn.statelessResetToken) ∧
      (3 ∉ s.parameterIDs →
        (applyDefaults (UState.mk tpMigrationIn [] false false)).maxPacketSize =
          (if tpMigrationIn.maxPacketSize = 0 then maxByteCount
           else tpMigrationIn.maxPacketSize)) ∧
      (4 ∉ s.parameterIDs →
        (applyDefaults (UState.mk tpMigrationIn [] false false)).initialMaxData =
          tpMigrationIn.initialMaxData) ∧
      (5 ∉ s.parameterIDs →
        (applyDefaults (UState.mk tpMigrationIn [] false false)).initialMaxStreamDataBidiLocal =
          tpMigrationIn.initialMaxStreamDataBidiLocal) ∧
      (6 ∉ s.parameterIDs →
        (applyDefaults (UState.mk tpMigrationIn [] false false)).initialMaxStreamDataBidiRemote =
          tpMigrationIn.initialMaxStreamDataBidiRemote) ∧
      (7 ∉ s.parameterIDs →
        (applyDefaults (UState.mk tpMigrationIn [] false false)).initialMaxStreamDataUni =
          tpMigrationIn.initialMaxStreamDataUni) ∧
      (8 ∉ s.parameterIDs →
        (applyDefaults (UState.mk tpMigrationIn [] false false)).maxBidiStreamNum =
          tpMigrationIn.maxBidiStreamNum) ∧
      (9 ∉ s.parameterIDs →
        (applyDefaults (UState.mk tpMigrationIn [] false false)).maxUniStreamNum =
          tpMigrationIn.maxUniStreamNum) ∧
      (10 ∉ s.parameterIDs →
        (applyDefaults (UState.mk tpMigrationIn [] false false)).ackDelayExponent =
          defaultAckDelayExponent) ∧
      (11 ∉ s.parameterIDs →
        (applyDefaults (UState.mk tpMigrationIn [] false false)).maxAckDelay =
          defaultMaxAckDelay) ∧
      (12 ∉ s.parameterIDs →
        (applyDefaults (UState.mk tpMigrationIn [] false false)).disableActiveMigration =
          tpMigrationIn.disableActiveMigration) ∧
      (13 ∉ s.parameterIDs →
        (applyDefaults (UState.mk tpMigrationIn [] false false)).preferredAddress =
          tpMigrationIn.preferredAddress) ∧
      (14 ∉ s.parameterIDs →
        (applyDefaults (UState.mk tpMigrationIn [] false false)).activeConnectionIDLimit =
          tpMigrationIn.activeConnectionIDLimit) :=
  unmarshal_frame_effect tpMigrationIn [] Perspective.server
    (applyDefaults (UState.mk tpMigrationIn [] false false)) (by decide)

end QuicTP
